import Mathlib

/-!
# Verification of the xlsxwrite.js OOXML spreadsheet writer

A shallow embedding of the workbook model, primitive codecs, style registry,
shared-string table, sheet/chart XML generators and the save path of
`xlsxwrite.js`, together with theorems settling the frozen claims about it.

JavaScript values are embedded as follows: numbers become `Rat` wrapped in a
`JSNum` type that keeps the `Infinity`, `-Infinity` and `NaN` points explicit;
strings become `String`; `Map` objects become insertion-ordered association
lists with `Map` get/set semantics; object fields that may be absent or `null`
become `Option`; the `x || default` idiom is embedded by `jsOr*` helpers that
treat `0`, `""`, `false`, `null`/absent as falsy, exactly as JavaScript does.
-/

set_option maxRecDepth 8000

namespace Xlsx

/-- A JavaScript number: a finite double (embedded as an exact rational) or
one of the non-finite points `Infinity`, `-Infinity`, `NaN`. -/
inductive JSNum where
  | fin (q : ℚ)
  | inf
  | negInf
  | nan
  deriving DecidableEq, Repr

/-- JavaScript `isNaN` on an already-numeric value. -/
def JSNum.isNaN : JSNum → Bool
  | .nan => true
  | _ => false

/-- JavaScript truthiness of a number: `0` and `NaN` are falsy. -/
def JSNum.truthy : JSNum → Bool
  | .fin q => q ≠ 0
  | .nan => false
  | _ => true

/-- `Math.round`: round half toward positive infinity. -/
def jsRound (q : ℚ) : Int := ⌊q + 1 / 2⌋

/-- `a || d` for an optional number-valued field (`0`/`NaN` absent ⇒ falsy). -/
def jsOrQ (o : Option ℚ) (d : ℚ) : ℚ :=
  match o with
  | some x => if x = 0 then d else x
  | none => d

/-- `a || d` for an optional `Nat`-valued field. -/
def jsOrNat (o : Option Nat) (d : Nat) : Nat :=
  match o with
  | some x => if x = 0 then d else x
  | none => d

/-- `a || d` for an optional `Int`-valued field. -/
def jsOrInt (o : Option Int) (d : Int) : Int :=
  match o with
  | some x => if x = 0 then d else x
  | none => d

/-- `a || d` for an optional string field (the empty string is falsy). -/
def jsOrStr (o : Option String) (d : String) : String :=
  match o with
  | some s => if s = "" then d else s
  | none => d

/-- `a || d` for an optional boolean field. -/
def jsOrBool (o : Option Bool) (d : Bool) : Bool :=
  match o with
  | some b => b || d
  | none => d

/-- `a || null` for an optional string field: `""` collapses to `null`. -/
def jsOrNullStr (o : Option String) : Option String :=
  match o with
  | some s => if s = "" then none else some s
  | none => none

/-- Insertion-ordered keyed map (the embedding of a JS `Map`). -/
abbrev JSMap (κ α : Type) := List (κ × α)

/-- `Map.prototype.get`. -/
def jsMapGet {κ α : Type} [DecidableEq κ] (m : JSMap κ α) (k : κ) : Option α :=
  (m.find? (fun p => p.1 = k)).map (·.2)

/-- `Map.prototype.set`: update in place if the key exists, else append. -/
def jsMapSet {κ α : Type} [DecidableEq κ] (m : JSMap κ α) (k : κ) (v : α) : JSMap κ α :=
  if m.any (fun p => p.1 = k) then
    m.map (fun p => if p.1 = k then (k, v) else p)
  else
    m ++ [(k, v)]

/-- `Map.prototype.has`. -/
def jsMapHas {κ α : Type} [DecidableEq κ] (m : JSMap κ α) (k : κ) : Bool :=
  m.any (fun p => p.1 = k)

/-- `String.prototype.startsWith` (character-list based, so that concrete
instances evaluate inside the kernel). -/
def strStartsWith (s pre : String) : Bool :=
  pre.data.isPrefixOf s.data

/-- `String.prototype.endsWith`. -/
def strEndsWith (s suf : String) : Bool :=
  suf.data.isSuffixOf s.data

/-- `String.prototype.toLowerCase` (ASCII, which covers every use here). -/
def strToLower (s : String) : String :=
  String.mk (s.data.map Char.toLower)

/-- `String.prototype.toUpperCase` (ASCII). -/
def strToUpper (s : String) : String :=
  String.mk (s.data.map Char.toUpper)

/-- `String.prototype.substring(n)` / drop of `n` leading characters. -/
def strDrop (s : String) (n : Nat) : String :=
  String.mk (s.data.drop n)

/-- Does `sub` occur as a contiguous run inside `l`? -/
def hasInfix : List Char → List Char → Bool
  | l, sub =>
    match l with
    | [] => sub.isEmpty
    | _ :: rest => sub.isPrefixOf l || hasInfix rest sub

/-- `String.prototype.includes` (substring occurrence), used to state
properties of generated XML text. -/
def strContains (s sub : String) : Bool :=
  hasInfix s.data sub.data

/-!
## Primitive codecs: `xlColumn` and `xlCell2Ind`

`xlColumn` is the loop
`while (col > 0) { col--; result = chr(65 + col % 26) + result; col = ⌊col/26⌋ }`
(the `XL_COLUMN_CACHE` memoisation table is pure caching and is not modelled).
`xlCell2Ind`'s string branch matches `/^([A-Z]+)(\d+)$/i`, uppercases the
letters and folds `column = column * 26 + (code - 64)`; a non-match falls back
to row 1, column 1.
-/

/-- The character-accumulating loop of `xlColumn`, with a structural fuel
argument (the running column value never exceeds the fuel, so the
fuel-exhausted branch is unreachable from `xlColumnChars`). -/
def xlColumnCharsCore : Nat → Nat → List Char → List Char
  | _, 0, acc => acc
  | 0, _ + 1, acc => acc
  | fuel + 1, n + 1, acc =>
    xlColumnCharsCore fuel (n / 26) (Char.ofNat (65 + n % 26) :: acc)

/-- The character-accumulating loop of `xlColumn`. -/
def xlColumnChars (n : Nat) (acc : List Char) : List Char :=
  xlColumnCharsCore n n acc

/-- Convert a 1-based column number to Excel column letters. -/
def xlColumn (column : Nat) : String :=
  String.mk (xlColumnChars column [])

/-- Fold of `column = column * 26 + (charCodeAt(i) - 64)` over uppercased
letters. -/
def xlLettersValue (letters : List Char) : Nat :=
  letters.foldl (fun col c => col * 26 + (c.toUpper.toNat - 64)) 0

/-- `parseInt(·, 10)` on an all-digit string. -/
def parseDigits (ds : List Char) : Nat :=
  ds.foldl (fun a c => a * 10 + (c.toNat - 48)) 0

/-- The string branch of `xlCell2Ind`: split at the maximal letter prefix as
the regex `/^([A-Z]+)(\d+)$/i` does; on failure return row 1, column 1. -/
def xlCell2IndStr (s : String) : Nat × Nat :=
  let cs := s.data
  let letters := cs.takeWhile (fun c => c.isAlpha)
  let rest := cs.dropWhile (fun c => c.isAlpha)
  if letters ≠ [] ∧ rest ≠ [] ∧ rest.all (fun c => c.isDigit) then
    (parseDigits rest, xlLettersValue letters)
  else
    (1, 1)


/-!
## XML text escaping, sheet-name escaping and colors
-/

/-- The apostrophe character (char code 39). -/
def aposChar : Char := Char.ofNat 39

/-- The double-quote character (char code 34). -/
def quoteChar : Char := Char.ofNat 34

/-- `escapeXml`: single-pass replacement of the characters in
`XML_ESCAPE_MAP` (`& < > " '`). `null`/`undefined` inputs never reach the
embedded call sites, so the argument is a plain string. -/
def escapeXml (str : String) : String :=
  String.join (str.data.map (fun c =>
    if c = '&' then "&amp;"
    else if c = '<' then "&lt;"
    else if c = '>' then "&gt;"
    else if c = quoteChar then "&quot;"
    else if c = aposChar then "&apos;"
    else String.singleton c))

/-- `escapeXmlAttr`: the narrower attribute-value escape set `& < "`. -/
def escapeXmlAttr (str : String) : String :=
  String.join (str.data.map (fun c =>
    if c = '&' then "&amp;"
    else if c = '<' then "&lt;"
    else if c = quoteChar then "&quot;"
    else String.singleton c))

/-- `escapeSheetName`: quote the name (doubling embedded single quotes) when
it contains a character outside `[A-Za-z0-9_]` or starts with a digit;
an empty (falsy) name yields `"Sheet1"`. -/
def escapeSheetName (name : String) : String :=
  if name = "" then "Sheet1"
  else if name.data.any (fun c => !(c.isAlphanum || c = '_')) ||
      (match name.data with
       | c :: _ => c.isDigit
       | [] => false) then
    String.singleton aposChar ++
      String.join (name.data.map (fun c =>
        if c = aposChar then String.mk [aposChar, aposChar] else String.singleton c)) ++
      String.singleton aposChar
  else name

/-- Lowercase hexadecimal digit, as produced by `Number.prototype.toString(16)`. -/
def hexDigit (n : Nat) : Char :=
  if n < 10 then Char.ofNat (48 + n) else Char.ofNat (87 + n)

/-- The digit-accumulating loop of `toString(16)` on a natural number, with
a structural fuel argument. -/
def natHexCharsCore : Nat → Nat → List Char → List Char
  | _, 0, acc => acc
  | 0, _ + 1, acc => acc
  | fuel + 1, n + 1, acc =>
    natHexCharsCore fuel ((n + 1) / 16) (hexDigit ((n + 1) % 16) :: acc)

/-- The digit-accumulating loop of `toString(16)` on a natural number. -/
def natHexChars (n : Nat) (acc : List Char) : List Char :=
  natHexCharsCore n n acc

/-- `n.toString(16)` for a natural number (lowercase, `0 ↦ "0"`). -/
def natToHex (n : Nat) : String :=
  if n = 0 then "0" else String.mk (natHexChars n [])

/-- `i.toString(16)` for an integer (a leading minus sign for negatives). -/
def intToHex (i : Int) : String :=
  if i < 0 then "-" ++ natToHex i.natAbs else natToHex i.toNat

/-- `String.prototype.padStart(2, "0")`. -/
def padStart2 (s : String) : String :=
  if s.length < 2 then String.mk (List.replicate (2 - s.length) '0') ++ s else s

/-- A JavaScript color value as passed to `getHexColor`/`toHexColor`:
a string (named color or hex), a number (packed BGR), or an RGB array. -/
inductive ColorV where
  | str (s : String)
  | num (j : JSNum)
  | rgb (vals : List ℚ)
  deriving DecidableEq, Repr

def NAMED_COLORS : List (String × String) := [
  ("black", "000000"), ("navy", "000080"), ("darkblue", "00008B"), ("mediumblue", "0000CD"),
  ("blue", "0000FF"), ("darkgreen", "006400"), ("green", "008000"), ("teal", "008080"),
  ("darkcyan", "008B8B"), ("deepskyblue", "00BFFF"), ("darkturquoise", "00CED1"), ("mediumspringgreen", "00FA9A"),
  ("lime", "00FF00"), ("springgreen", "00FF7F"), ("aqua", "00FFFF"), ("cyan", "00FFFF"),
  ("midnightblue", "191970"), ("dodgerblue", "1E90FF"), ("lightseagreen", "20B2AA"), ("forestgreen", "228B22"),
  ("seagreen", "2E8B57"), ("darkslategray", "2F4F4F"), ("limegreen", "32CD32"), ("mediumseagreen", "3CB371"),
  ("turquoise", "40E0D0"), ("royalblue", "4169E1"), ("steelblue", "4682B4"), ("darkslateblue", "483D8B"),
  ("mediumturquoise", "48D1CC"), ("indigo", "4B0082"), ("darkolivegreen", "556B2F"), ("cadetblue", "5F9EA0"),
  ("cornflowerblue", "6495ED"), ("mediumaquamarine", "66CDAA"), ("dimgray", "696969"), ("slateblue", "6A5ACD"),
  ("olivedrab", "6B8E23"), ("slategray", "708090"), ("lightslategray", "778899"), ("mediumslateblue", "7B68EE"),
  ("lawngreen", "7CFC00"), ("chartreuse", "7FFF00"), ("aquamarine", "7FFFD4"), ("maroon", "800000"),
  ("purple", "800080"), ("olive", "808000"), ("gray", "808080"), ("grey", "808080"),
  ("skyblue", "87CEEB"), ("lightskyblue", "87CEFA"), ("blueviolet", "8A2BE2"), ("darkred", "8B0000"),
  ("darkmagenta", "8B008B"), ("saddlebrown", "8B4513"), ("darkseagreen", "8FBC8F"), ("lightgreen", "90EE90"),
  ("mediumpurple", "9370DB"), ("darkviolet", "9400D3"), ("palegreen", "98FB98"), ("darkorchid", "9932CC"),
  ("yellowgreen", "9ACD32"), ("sienna", "A0522D"), ("brown", "A52A2A"), ("darkgray", "A9A9A9"),
  ("lightblue", "ADD8E6"), ("greenyellow", "ADFF2F"), ("paleturquoise", "AFEEEE"), ("lightsteelblue", "B0C4DE"),
  ("powderblue", "B0E0E6"), ("firebrick", "B22222"), ("darkgoldenrod", "B8860B"), ("mediumorchid", "BA55D3"),
  ("rosybrown", "BC8F8F"), ("darkkhaki", "BDB76B"), ("silver", "C0C0C0"), ("mediumvioletred", "C71585"),
  ("indianred", "CD5C5C"), ("peru", "CD853F"), ("chocolate", "D2691E"), ("tan", "D2B48C"),
  ("lightgray", "D3D3D3"), ("thistle", "D8BFD8"), ("orchid", "DA70D6"), ("goldenrod", "DAA520"),
  ("palevioletred", "DB7093"), ("crimson", "DC143C"), ("gainsboro", "DCDCDC"), ("plum", "DDA0DD"),
  ("burlywood", "DEB887"), ("lightcyan", "E0FFFF"), ("lavender", "E6E6FA"), ("darksalmon", "E9967A"),
  ("violet", "EE82EE"), ("palegoldenrod", "EEE8AA"), ("lightcoral", "F08080"), ("khaki", "F0E68C"),
  ("aliceblue", "F0F8FF"), ("honeydew", "F0FFF0"), ("azure", "F0FFFF"), ("sandybrown", "F4A460"),
  ("wheat", "F5DEB3"), ("beige", "F5F5DC"), ("whitesmoke", "F5F5F5"), ("mintcream", "F5FFFA"),
  ("ghostwhite", "F8F8FF"), ("salmon", "FA8072"), ("antiquewhite", "FAEBD7"), ("linen", "FAF0E6"),
  ("lightgoldenrodyellow", "FAFAD2"), ("oldlace", "FDF5E6"), ("red", "FF0000"), ("fuchsia", "FF00FF"),
  ("magenta", "FF00FF"), ("deeppink", "FF1493"), ("orangered", "FF4500"), ("tomato", "FF6347"),
  ("hotpink", "FF69B4"), ("coral", "FF7F50"), ("darkorange", "FF8C00"), ("lightsalmon", "FFA07A"),
  ("orange", "FFA500"), ("lightpink", "FFB6C1"), ("pink", "FFC0CB"), ("gold", "FFD700"),
  ("peachpuff", "FFDAB9"), ("navajowhite", "FFDEAD"), ("moccasin", "FFE4B5"), ("bisque", "FFE4C4"),
  ("mistyrose", "FFE4E1"), ("blanchedalmond", "FFEBCD"), ("papayawhip", "FFEFD5"), ("lavenderblush", "FFF0F5"),
  ("seashell", "FFF5EE"), ("cornsilk", "FFF8DC"), ("lemonchiffon", "FFFACD"), ("floralwhite", "FFFAF0"),
  ("snow", "FFFAFA"), ("yellow", "FFFF00"), ("lightyellow", "FFFFE0"), ("ivory", "FFFFF0"),
  ("white", "FFFFFF")]

/-- `NAMED_COLORS[s]` (keys are already lowercase in the source table). -/
def namedColorLookup (s : String) : Option String :=
  (NAMED_COLORS.find? (fun p => p.1 = s)).map (·.2)

/-- `str.replace("#", "")`: JavaScript string-pattern `replace` removes only
the first occurrence. -/
def removeFirstHash (s : String) : String :=
  match s.data.splitOn '#' with
  | [] => s
  | [_] => s
  | a :: b :: rest => String.mk (a ++ (List.intercalate ['#'] (b :: rest)))

/-- Truncation toward zero of a rational (JavaScript `ToInt32` prelude). -/
def ratTrunc (q : ℚ) : Int := q.num / q.den

/-- The unsigned 32-bit pattern of JavaScript `ToInt32` on a finite number
(`NaN`/`±Infinity` convert to 0). Bit positions 0–23, which are all the
packed-BGR code reads, agree between this pattern and the signed value. -/
def jsUInt32 : JSNum → Nat
  | .fin q => ((ratTrunc q).emod 4294967296).toNat
  | _ => 0

/-- `getHexColor`: named color, hex string, RGB triple or packed BGR number
to a 6-hex uppercase string; `null`/`undefined`/`NaN` yield `"000000"`. -/
def getHexColor (colorValue : Option ColorV) : String :=
  match colorValue with
  | none => "000000"
  | some (.num .nan) => "000000"
  | some (.str s) =>
    match namedColorLookup (strToLower s) with
    | some named => named
    | none => strToUpper (removeFirstHash s)
  | some (.rgb vals) =>
    strToUpper (String.join (vals.map (fun c => padStart2 (intToHex (jsRound c)))))
  | some (.num j) =>
    let v := jsUInt32 j
    let r := v % 256
    let g := v / 256 % 256
    let b := v / 65536 % 256
    strToUpper (String.join ([r, g, b].map (fun c => padStart2 (natToHex c))))

/-- `toHexColor`: RGB array or hex string fast paths, else `getHexColor`. -/
def toHexColor (color : ColorV) : String :=
  match color with
  | .rgb vals =>
    strToUpper (String.join (vals.map (fun c => padStart2 (intToHex (jsRound c)))))
  | .str s => strToUpper (removeFirstHash s)
  | c => getHexColor (some c)

/-!
## Rendering numbers into XML text

Template-literal interpolation `${x}` applies the JavaScript number-to-string
conversion. The embedding below is exact for the values this development
evaluates: integers of magnitude below `10^21` (printed in plain decimal),
finite decimal fractions, and the `±9.99999999999999e+307` sentinels that
`_processCell` substitutes for the infinities.
-/

/-- The largest-magnitude finite sentinel `9.99999999999999E+307` as an exact
rational, built directly in normalised form (numerator
`999999999999999 * 10 ^ 293`, denominator 1) so that it evaluates inside the
kernel. -/
def sentinelQ : ℚ := ⟨999999999999999 * 10 ^ 293, 1, one_ne_zero, Nat.coprime_one_right _⟩

/-- Decimal rendering of a rational whose denominator divides a power of ten;
other denominators (never produced by the embedded writer) fall back to a
`num/den` rendering. -/
def ratDecimalString (q : ℚ) : String :=
  if q.den = 1 then toString q.num
  else
    match (List.range 21).find? (fun k => (q * 10 ^ k).den = 1) with
    | some k =>
      let scaled := (q * 10 ^ k).num.natAbs
      let digits := (toString scaled).data
      let digits := if digits.length ≤ k then
          List.replicate (k + 1 - digits.length) '0' ++ digits
        else digits
      let intPart := String.mk (digits.take (digits.length - k))
      let fracPart := String.mk (digits.drop (digits.length - k))
      (if q < 0 then "-" else "") ++ intPart ++ "." ++ fracPart
    | none => toString q.num ++ "/" ++ toString q.den

/-- JavaScript number-to-string conversion on a `JSNum`. -/
def jsNumToString : JSNum → String
  | .inf => "Infinity"
  | .negInf => "-Infinity"
  | .nan => "NaN"
  | .fin q =>
    if q = sentinelQ then "9.99999999999999e+307"
    else if q = -sentinelQ then "-9.99999999999999e+307"
    else ratDecimalString q


/-!
## The `Format` class and the style registry

`new Format(properties)` normalises every property through `x || default`
(or `!== undefined` for `locked`) and then applies the `border`/`borderColor`
shorthand.  The snake_case/camelCase alias chains
(`properties.font_name || properties.fontName || …`) are embedded as a single
optional field per property.  `getKey()` serialises a fixed 28-field record
with `JSON.stringify`; since that serialisation is injective on the fixed
schema (per-field primitive values, stable key order), the key is embedded as
the field tuple itself.
-/

/-- The builtin number-format table `NUM_FORMATS`. -/
def NUM_FORMATS : List (String × Nat) := [
  ("General", 0), ("0", 1), ("0.00", 2), ("#,##0", 3), ("#,##0.00", 4),
  ("0%", 9), ("0.00%", 10), ("0.00E+00", 11), ("# ?/?", 12), ("# ??/??", 13),
  ("mm-dd-yy", 14), ("d-mmm-yy", 15), ("d-mmm", 16), ("mmm-yy", 17),
  ("h:mm AM/PM", 18), ("h:mm:ss AM/PM", 19), ("h:mm", 20), ("h:mm:ss", 21),
  ("m/d/yy h:mm", 22), ("#,##0 ;(#,##0)", 37), ("#,##0 ;[Red](#,##0)", 38),
  ("#,##0.00;(#,##0.00)", 39), ("#,##0.00;[Red](#,##0.00)", 40),
  ("mm:ss", 45), ("[h]:mm:ss", 46), ("mmss.0", 47), ("##0.0E+0", 48), ("@", 49)]

/-- `NUM_FORMATS[s]` lookup (`undefined` when absent). -/
def numFormatsLookup (s : String) : Option Nat :=
  (NUM_FORMATS.find? (fun p => p.1 = s)).map (·.2)

/-- The property bag accepted by the `Format` constructor.  `none` stands for
an absent (or falsy, where `||` is used) property. -/
structure FormatProps where
  font_name : Option String := none
  font_size : Option ℚ := none
  font_color : Option ColorV := none
  bold : Option Bool := none
  italic : Option Bool := none
  underline : Option Nat := none
  font_strikeout : Option Bool := none
  font_script : Option Nat := none
  num_format : Option String := none
  num_format_index : Option Nat := none
  align : Option String := none
  valign : Option String := none
  rotation : Option Int := none
  text_wrap : Option Bool := none
  shrink : Option Bool := none
  indent : Option Nat := none
  border : Option Nat := none
  border_color : Option ColorV := none
  left : Option Nat := none
  left_color : Option ColorV := none
  right : Option Nat := none
  right_color : Option ColorV := none
  top : Option Nat := none
  top_color : Option ColorV := none
  bottom : Option Nat := none
  bottom_color : Option ColorV := none
  diagonal_type : Option Nat := none
  diagonal_border : Option Nat := none
  diagonal_color : Option ColorV := none
  pattern : Option Nat := none
  bg_color : Option ColorV := none
  fg_color : Option ColorV := none
  locked : Option Bool := none
  hidden : Option Bool := none
  deriving DecidableEq, Repr

/-- A `Format` object after constructor normalisation. -/
structure Format where
  fontName : String
  fontSize : ℚ
  fontColor : Option ColorV
  bold : Bool
  italic : Bool
  underline : Nat
  fontStrikeout : Bool
  fontScript : Nat
  numFormat : String
  numFormatIndex : Nat
  align : Option String
  valign : Option String
  rotation : Int
  textWrap : Bool
  shrink : Bool
  indent : Nat
  border : Nat
  borderColor : Option ColorV
  left : Nat
  leftColor : Option ColorV
  right : Nat
  rightColor : Option ColorV
  top : Nat
  topColor : Option ColorV
  bottom : Nat
  bottomColor : Option ColorV
  diagonalType : Nat
  diagonalBorder : Nat
  diagonalColor : Option ColorV
  pattern : Nat
  bgColor : Option ColorV
  fgColor : Option ColorV
  locked : Bool
  hidden : Bool
  xfIndex : Option Nat
  deriving DecidableEq, Repr

/-- `a || null` for color-valued properties. -/
def jsOrNullColor (o : Option ColorV) : Option ColorV := o

/-- The `Format` constructor, including the trailing `border`/`borderColor`
shorthand expansion. -/
def mkFormat (p : FormatProps) : Format :=
  let border := jsOrNat p.border 0
  let borderColor := jsOrNullColor p.border_color
  let left := jsOrNat p.left 0
  let right := jsOrNat p.right 0
  let top := jsOrNat p.top 0
  let bottom := jsOrNat p.bottom 0
  let leftColor := jsOrNullColor p.left_color
  let rightColor := jsOrNullColor p.right_color
  let topColor := jsOrNullColor p.top_color
  let bottomColor := jsOrNullColor p.bottom_color
  { fontName := jsOrStr p.font_name "Calibri"
    fontSize := jsOrQ p.font_size 11
    fontColor := jsOrNullColor p.font_color
    bold := jsOrBool p.bold false
    italic := jsOrBool p.italic false
    underline := jsOrNat p.underline 0
    fontStrikeout := jsOrBool p.font_strikeout false
    fontScript := jsOrNat p.font_script 0
    numFormat := jsOrStr p.num_format "General"
    numFormatIndex := jsOrNat p.num_format_index 0
    align := jsOrNullStr p.align
    valign := jsOrNullStr p.valign
    rotation := jsOrInt p.rotation 0
    textWrap := jsOrBool p.text_wrap false
    shrink := jsOrBool p.shrink false
    indent := jsOrNat p.indent 0
    border := border
    borderColor := borderColor
    left := if border ≠ 0 then (if left ≠ 0 then left else border) else left
    right := if border ≠ 0 then (if right ≠ 0 then right else border) else right
    top := if border ≠ 0 then (if top ≠ 0 then top else border) else top
    bottom := if border ≠ 0 then (if bottom ≠ 0 then bottom else border) else bottom
    leftColor := if borderColor.isSome then
        (match leftColor with | some c => some c | none => borderColor)
      else leftColor
    rightColor := if borderColor.isSome then
        (match rightColor with | some c => some c | none => borderColor)
      else rightColor
    topColor := if borderColor.isSome then
        (match topColor with | some c => some c | none => borderColor)
      else topColor
    bottomColor := if borderColor.isSome then
        (match bottomColor with | some c => some c | none => borderColor)
      else bottomColor
    diagonalType := jsOrNat p.diagonal_type 0
    diagonalBorder := jsOrNat p.diagonal_border 0
    diagonalColor := jsOrNullColor p.diagonal_color
    pattern := jsOrNat p.pattern 0
    bgColor := jsOrNullColor p.bg_color
    fgColor := jsOrNullColor p.fg_color
    locked := match p.locked with
      | some b => b
      | none => true
    hidden := jsOrBool p.hidden false
    xfIndex := none }

/-- The 28 fields serialised by `Format.getKey` (`fn fs fc b i u st sc nf al
va r tw sh in l lc ri rc t tc bo bc p bg fg lo hi`), in source order. -/
structure FormatKey where
  fn : String
  fs : ℚ
  fc : Option ColorV
  b : Bool
  i : Bool
  u : Nat
  st : Bool
  sc : Nat
  nf : String
  al : Option String
  va : Option String
  r : Int
  tw : Bool
  sh : Bool
  ind : Nat
  l : Nat
  lc : Option ColorV
  ri : Nat
  rc : Option ColorV
  t : Nat
  tc : Option ColorV
  bo : Nat
  bc : Option ColorV
  p : Nat
  bg : Option ColorV
  fg : Option ColorV
  lo : Bool
  hi : Bool
  deriving DecidableEq, Repr

/-- `Format.getKey` (the `JSON.stringify` serialisation is embedded as the
field tuple; the `_cachedKey` memoisation is pure caching). -/
def Format.getKey (f : Format) : FormatKey :=
  { fn := f.fontName, fs := f.fontSize, fc := f.fontColor
    b := f.bold, i := f.italic, u := f.underline, st := f.fontStrikeout
    sc := f.fontScript, nf := f.numFormat
    al := f.align, va := f.valign, r := f.rotation, tw := f.textWrap
    sh := f.shrink, ind := f.indent
    l := f.left, lc := f.leftColor, ri := f.right, rc := f.rightColor
    t := f.top, tc := f.topColor, bo := f.bottom, bc := f.bottomColor
    p := f.pattern, bg := f.bgColor, fg := f.fgColor
    lo := f.locked, hi := f.hidden }

/-!
## Cells and `_processCell`
-/

/-- A JavaScript value written into a cell. -/
inductive JSValue where
  | null
  | undef
  | str (s : String)
  | boolean (b : Bool)
  | num (j : JSNum)
  deriving DecidableEq, Repr

/-- The `format` argument of a cell: `none` is `null`/`undefined`; otherwise
a `Format` object reference, of which the sheet-XML generator reads only
`xfIndex`. -/
structure FmtRef where
  xfIndex : Option Nat
  deriving DecidableEq, Repr

/-- The `value` slot of processed cell data: a string (empty or formula
text), a number, or a shared-string index. -/
inductive CVal where
  | str (s : String)
  | num (j : JSNum)
  | idx (n : Nat)
  deriving DecidableEq, Repr

/-- The cell `type` tag: `'n'`, `'str'`, `'s'` or `'b'`. -/
inductive CType where
  | n
  | strT
  | s
  | b
  deriving DecidableEq, Repr

/-- Processed cell data (`{ value, type, isFormula?, format }`). -/
structure CellData where
  value : CVal
  ctype : CType
  isFormula : Bool := false
  format : Option FmtRef
  deriving DecidableEq, Repr

/-- The shared-string table: the writer fields `sharedStrings` (array) and
`sharedStringsMap` (`Map` from string to index), grouped into one state. -/
structure SST where
  sharedStrings : List String := []
  sharedStringsMap : JSMap String Nat := []
  deriving DecidableEq, Repr

/-- `_processCell(value, format)`: type the value, strip a leading `=`,
intern non-empty plain strings, map booleans to `0/1`, replace `±Infinity`
by the `±9.99999999999999E+307` sentinels and `NaN` by the empty value. -/
def processCell (value : JSValue) (format : Option FmtRef) (st : SST) :
    CellData × SST :=
  match value with
  | .null => ({ value := .str "", ctype := .n, format := format }, st)
  | .undef => ({ value := .str "", ctype := .n, format := format }, st)
  | .str sv =>
    if strStartsWith sv "=" then
      ({ value := .str (strDrop sv 1), ctype := .strT, isFormula := true,
         format := format }, st)
    else if sv = "" then
      ({ value := .str "", ctype := .n, format := format }, st)
    else
      match jsMapGet st.sharedStringsMap sv with
      | some idx => ({ value := .idx idx, ctype := .s, format := format }, st)
      | none =>
        let idx := st.sharedStrings.length
        ({ value := .idx idx, ctype := .s, format := format },
         { sharedStrings := st.sharedStrings ++ [sv],
           sharedStringsMap := jsMapSet st.sharedStringsMap sv idx })
  | .boolean bv =>
    ({ value := .num (.fin (if bv then 1 else 0)), ctype := .b,
       format := format }, st)
  | .num .inf =>
    ({ value := .num (.fin sentinelQ), ctype := .n, format := format }, st)
  | .num .negInf =>
    ({ value := .num (.fin (-sentinelQ)), ctype := .n, format := format }, st)
  | .num .nan => ({ value := .str "", ctype := .n, format := format }, st)
  | .num (.fin q) =>
    ({ value := .num (.fin q), ctype := .n, format := format }, st)

/-- Fold `_processCell` over a sequence of written values (the shared-string
state evolution of any sequence of cell writes). -/
def processValues (vals : List JSValue) (st : SST) : SST :=
  vals.foldl (fun acc v => (processCell v none acc).2) st


/-!
## Chart configuration and the chart XML generators

Chart/axis/series configuration objects are built in the source by
`getDefaultChart`/`getDefaultAxis`/`getDefaultSeries` (deep merges of default
records); the embedding gives each the structure of fields the generators
read.  Axis ids come from `generateId()` (`Math.floor(Math.random() * 1e9)`),
so they are parameters of the embedding.
-/

/-- The `MARKER_TYPES` mapping. -/
def MARKER_TYPES : List (String × String) := [
  ("automatic", "auto"), ("none", "none"), ("circle", "circle"),
  ("diamond", "diamond"), ("square", "square"), ("triangle", "triangle"),
  ("x", "x"), ("star", "star"), ("plus", "plus"), ("dot", "dot"),
  ("dash", "dash"), ("short_dash", "dash"), ("long_dash", "dash"),
  ("picture", "picture")]

/-- `MARKER_TYPES[s]` lookup. -/
def markerTypesLookup (s : String) : Option String :=
  (MARKER_TYPES.find? (fun p => p.1 = s)).map (·.2)

/-- JavaScript truthiness of a color value. -/
def colorVTruthy : ColorV → Bool
  | .str s => s ≠ ""
  | .num j => j.truthy
  | .rgb _ => true

/-- A chart color structure (`getDefaultColor` shape): `option` plus value. -/
structure ColorCfg where
  option : String := "Automatic"
  value : Option ColorV := some (.rgb [0, 0, 0])
  deriving DecidableEq, Repr

/-- A chart line structure (`getDefaultLine` shape; only the fields the
embedded generators read). -/
structure LineCfg where
  color : Option ColorCfg := some {}
  width : Option ℚ := some (3 / 2)
  dashType : Option String := some "solid"
  deriving DecidableEq, Repr

/-- A chart marker structure (`getDefaultMarker` shape). -/
structure MarkerCfg where
  option : String := "Automatic"
  type : Option String := some "circle"
  size : Option ℚ := some 5
  fillColor : Option ColorCfg := some {}
  line : Option LineCfg := some { width := some (3 / 4) }
  deriving DecidableEq, Repr

/-- A value inside a series `values` array: a number or a category label. -/
inductive SeriesVal where
  | num (j : JSNum)
  | str (s : String)
  deriving DecidableEq, Repr

/-- A partial embedding of JavaScript string-to-number coercion, used only by
`isNaN` on series values: decimal integer/fraction literals with optional
sign; anything else coerces to `NaN` (`none`).  The claims never route
strings through numeric series, so only the `NaN`/non-`NaN` split matters. -/
def jsStringToNumber (s : String) : Option ℚ :=
  let t := s.trim
  if t = "" then some 0
  else
    let (sgn, body) :=
      if t.startsWith "-" then ((-1 : ℚ), t.drop 1)
      else if t.startsWith "+" then ((1 : ℚ), t.drop 1)
      else ((1 : ℚ), t)
    match body.split (fun c => c = '.') with
    | [ip] =>
      if ip ≠ "" ∧ ip.data.all (fun c => c.isDigit) then
        some (sgn * parseDigits ip.data)
      else none
    | [ip, fp] =>
      if (ip ≠ "" ∨ fp ≠ "") ∧ ip.data.all (fun c => c.isDigit) ∧
          fp.data.all (fun c => c.isDigit) then
        some (sgn * (parseDigits ip.data + parseDigits fp.data / 10 ^ fp.length))
      else none
    | _ => none

/-- `isNaN(val)` on a series value. -/
def seriesValIsNaN : SeriesVal → Bool
  | .num j => j.isNaN
  | .str s => (jsStringToNumber s).isNone

/-- `${val}` rendering of a series value. -/
def seriesValToString : SeriesVal → String
  | .num j => jsNumToString j
  | .str s => s

/-- A chart series (`getDefaultSeries` shape; `name.text`, `x.values` and
`y.values` are flattened into the fields the generators read). -/
structure SeriesCfg where
  nameText : String := ""
  xValues : List SeriesVal := []
  yValues : List SeriesVal := []
  line : Option LineCfg := some {}
  marker : Option MarkerCfg := some {}
  smooth : Bool := false
  dataLabels : Option Unit := none
  trendlineType : Option String := none
  trendlineOrder : Option Nat := none
  trendlinePeriod : Option Nat := none
  trendlineForward : Option ℚ := none
  trendlineBackward : Option ℚ := none
  trendlineDisplayEquation : Bool := false
  trendlineDisplayRSquared : Bool := false
  hasTrendline : Bool := false
  showValueLabel : Bool := false
  showCatNameLabel : Bool := false
  showSerNameLabel : Bool := false
  showPercentLabel : Bool := false
  hasDataLabels : Bool := false
  deriving DecidableEq, Repr

/-- The `majorGridlines`/`minorGridlines` axis field: absent, `false`, or a
config object with optional color/width. -/
inductive GridlinesOpt where
  | undef
  | off
  | cfg (color : Option String) (width : Option ℚ)
  deriving DecidableEq, Repr

/-- An axis configuration (`getDefaultAxis` shape restricted to the fields
`_generateAxisXML` reads). -/
structure AxisCfg where
  id : Nat
  visible : Bool := true
  minimum : Option JSNum := some .nan
  maximum : Option JSNum := some .nan
  logBase : Option JSNum := some .nan
  majorGridlines : GridlinesOpt := .undef
  minorGridlines : GridlinesOpt := .undef
  titleText : String := ""
  numberFormat : Option String := none
  numberFormatCode : Option String := some "General"
  numberLinkedToSource : Option Bool := some true
  minorTickMark : Option String := none
  tickLabelFontSize : Option ℚ := none
  fontSize : Option ℚ := none
  deriving DecidableEq, Repr

/-- A legend configuration. -/
structure LegendCfg where
  position : Option String := some "r"
  fontSize : Option ℚ := some 10
  deriving DecidableEq, Repr

/-- A chart configuration (`getDefaultChart` shape restricted to the fields
the embedded generators read). -/
structure ChartCfg where
  type : String := "scatter"
  scatterStyle : Option String := some "lineMarker"
  grouping : Option String := some "standard"
  gapWidth : Option ℚ := some 150
  overlap : Option ℚ := some 0
  holeSize : Option ℚ := none
  titleText : String := ""
  xAxis : AxisCfg
  yAxis : AxisCfg
  x2Axis : AxisCfg
  y2Axis : AxisCfg
  legend : Option LegendCfg := some {}
  series : List SeriesCfg := []
  backgroundColor : Option String := some "FFFFFF"
  showBorder : Bool := true
  width : ℚ := 480
  height : ℚ := 288
  x : ℚ := 0
  y : ℚ := 0
  deriving DecidableEq, Repr

/-- The data-block origin recorded for a sheet's chart at save time. -/
structure DataInfo where
  startRow : Nat
  startCol : Nat
  numRows : Nat
  numCols : Nat
  deriving DecidableEq, Repr

/-- `_generateCellRange(sheetName, col, startRow, endRow)`. -/
def generateCellRange (sheetName : String) (col startRow endRow : Nat) : String :=
  let colLetter := xlColumn col
  let safeSheetName := escapeSheetName sheetName
  safeSheetName ++ "!$" ++ colLetter ++ "$" ++ toString startRow ++ ":$" ++
    colLetter ++ "$" ++ toString endRow

/-- `dataInfo?.numRows > 1`. -/
def dataInfoMultiRow : Option DataInfo → Bool
  | some di => di.numRows > 1
  | none => false

/-- `_generateNumericPointsXML(values)`. -/
def generateNumericPointsXML (values : List SeriesVal) : String :=
  let points := String.join (values.enum.map (fun p =>
    if !(seriesValIsNaN p.2) then
      "<c:pt idx=\"" ++ toString p.1 ++ "\"><c:v>" ++ seriesValToString p.2 ++
        "</c:v></c:pt>"
    else ""))
  "<c:formatCode>General</c:formatCode>" ++
    "<c:ptCount val=\"" ++ toString values.length ++ "\"/>" ++ points

/-- `_generateXValXML(series, index, sheetName, dataInfo)`. -/
def generateXValXML (series : SeriesCfg) (_index : Nat) (sheetName : String)
    (dataInfo : Option DataInfo) : String :=
  if dataInfoMultiRow dataInfo then
    match dataInfo with
    | some di =>
      let startRow := di.startRow + 1
      let endRow := di.startRow + di.numRows - 1
      let range := generateCellRange sheetName di.startCol startRow endRow
      "<c:xVal><c:numRef><c:f>" ++ range ++ "</c:f></c:numRef></c:xVal>"
    | none => ""
  else if series.xValues.length > 0 then
    "<c:xVal><c:numLit>" ++ generateNumericPointsXML series.xValues ++
      "</c:numLit></c:xVal>"
  else ""

/-- `_generateYValXML(series, index, sheetName, dataInfo)`. -/
def generateYValXML (series : SeriesCfg) (index : Nat) (sheetName : String)
    (dataInfo : Option DataInfo) : String :=
  if dataInfoMultiRow dataInfo then
    match dataInfo with
    | some di =>
      let startRow := di.startRow + 1
      let endRow := di.startRow + di.numRows - 1
      let range := generateCellRange sheetName (di.startCol + index + 1)
        startRow endRow
      "<c:yVal><c:numRef><c:f>" ++ range ++ "</c:f></c:numRef></c:yVal>"
    | none => ""
  else if series.yValues.length > 0 then
    "<c:yVal><c:numLit>" ++ generateNumericPointsXML series.yValues ++
      "</c:numLit></c:yVal>"
  else ""

/-- `_generateCatXML(series, index, sheetName, dataInfo)`. -/
def generateCatXML (series : SeriesCfg) (_index : Nat) (_sheetName : String)
    (_dataInfo : Option DataInfo) : String :=
  let values := series.xValues
  if values.length = 0 then ""
  else
    let isString := match values.head? with
      | some (.str _) => true
      | _ => false
    let points := String.join (values.enum.map (fun p =>
      "<c:pt idx=\"" ++ toString p.1 ++ "\"><c:v>" ++
        (if isString then escapeXml (seriesValToString p.2)
         else seriesValToString p.2) ++ "</c:v></c:pt>"))
    if isString then
      "<c:cat><c:strLit>" ++ "<c:ptCount val=\"" ++ toString values.length ++
        "\"/>" ++ points ++ "</c:strLit></c:cat>"
    else
      "<c:cat><c:numLit>" ++ "<c:formatCode>General</c:formatCode>" ++
        "<c:ptCount val=\"" ++ toString values.length ++ "\"/>" ++ points ++
        "</c:numLit></c:cat>"

/-- `_generateValXML(series, index, sheetName, dataInfo)`. -/
def generateValXML (series : SeriesCfg) (_index : Nat) (_sheetName : String)
    (_dataInfo : Option DataInfo) : String :=
  if series.yValues.length = 0 then ""
  else
    "<c:val><c:numLit>" ++ generateNumericPointsXML series.yValues ++
      "</c:numLit></c:val>"

/-- `_generateSeriesNameXML(series, index, sheetName, dataInfo)`. -/
def generateSeriesNameXML (series : SeriesCfg) (index : Nat)
    (sheetName : String) (dataInfo : Option DataInfo) : String :=
  if series.nameText = "" then ""
  else if dataInfoMultiRow dataInfo then
    match dataInfo with
    | some di =>
      let headerCol := xlColumn (di.startCol + index + 1)
      let headerRow := di.startRow
      let safeSheetName := escapeSheetName sheetName
      "<c:tx><c:strRef><c:f>" ++ safeSheetName ++ "!$" ++ headerCol ++ "$" ++
        toString headerRow ++ "</c:f></c:strRef></c:tx>"
    | none => ""
  else
    "<c:tx><c:v>" ++ escapeXml series.nameText ++ "</c:v></c:tx>"

/-- `_generateSeriesHeader(series, index, sheetName, dataInfo)`. -/
def generateSeriesHeader (series : SeriesCfg) (index : Nat)
    (sheetName : String) (dataInfo : Option DataInfo) : String :=
  "<c:ser>" ++ "<c:idx val=\"" ++ toString index ++ "\"/>" ++
    "<c:order val=\"" ++ toString index ++ "\"/>" ++
    generateSeriesNameXML series index sheetName dataInfo

/-- `_generateSolidFillXML(color)`. -/
def generateSolidFillXML (color : Option ColorV) : String :=
  match color with
  | none => ""
  | some c =>
    if !colorVTruthy c then ""
    else
      "<a:solidFill><a:srgbClr val=\"" ++ toHexColor c ++
        "\"/></a:solidFill>"

/-- `_generateLineXML(line)`. -/
def generateLineXML (line : Option LineCfg) : String :=
  match line with
  | none => ""
  | some l =>
    match l.color with
    | none => ""
    | some color =>
      let width := match l.width with
        | some w => w
        | none => 2
      let dashType := match l.dashType with
        | some d => d
        | none => "solid"
      if color.option = "None" then "<a:ln><a:noFill/></a:ln>"
      else if (color.option == "Solid") &&
          (match color.value with
           | some v => colorVTruthy v
           | none => false) then
        let hexColor := match color.value with
          | some v => toHexColor v
          | none => ""
        let lineWidth := width * 12700
        "<a:ln w=\"" ++ ratDecimalString lineWidth ++ "\">" ++
          "<a:solidFill><a:srgbClr val=\"" ++ hexColor ++
          "\"/></a:solidFill>" ++ "<a:prstDash val=\"" ++ dashType ++
          "\"/>" ++ "</a:ln>"
      else ""

/-- `_generateSeriesSpPr(series, chart)`. -/
def generateSeriesSpPr (series : SeriesCfg) : String :=
  "<c:spPr>" ++ generateLineXML series.line ++ "</c:spPr>"

/-- `series.line?.color?.value` with JS truthiness. -/
def seriesLineColorValue (series : SeriesCfg) : Option ColorV :=
  match series.line with
  | some l =>
    match l.color with
    | some c =>
      match c.value with
      | some v => if colorVTruthy v then some v else none
      | none => none
    | none => none
  | none => none

/-- `_generateBarSpPr(series)`. -/
def generateBarSpPr (series : SeriesCfg) : String :=
  let fill := match seriesLineColorValue series with
    | some v => generateSolidFillXML (some v)
    | none => ""
  "<c:spPr>" ++ fill ++ "</c:spPr>"

/-- `_generateMarkerXML(marker, series, chart)`. -/
def generateMarkerXML (marker : Option MarkerCfg) : String :=
  match marker with
  | none => "<c:marker><c:symbol val=\"none\"/></c:marker>"
  | some m =>
    if m.option = "NoMarker" ∨ m.option = "none" then
      "<c:marker><c:symbol val=\"none\"/></c:marker>"
    else if m.option = "Automatic" ∨ m.option = "auto" then ""
    else
      let markerType := match m.type with
        | some t =>
          match markerTypesLookup t with
          | some mt => mt
          | none => if t = "" then "circle" else t
        | none => "circle"
      let markerSize := jsOrQ m.size 5
      let inner :=
        if m.fillColor.isSome ∨ m.line.isSome then
          let fillPart := match m.fillColor with
            | some fc =>
              if (fc.option == "Solid") &&
                  (match fc.value with
                   | some v => colorVTruthy v
                   | none => false) then
                match fc.value with
                | some v => generateSolidFillXML (some v)
                | none => ""
              else ""
            | none => ""
          let linePart := match m.line with
            | some ml =>
              match ml.color with
              | some mc =>
                if (mc.option == "Solid") &&
                    (match mc.value with
                     | some v => colorVTruthy v
                     | none => false) then
                  match mc.value with
                  | some v =>
                    let lineWidth := jsOrQ ml.width (3 / 4) * 12700
                    "<a:ln w=\"" ++ ratDecimalString lineWidth ++
                      "\"><a:solidFill><a:srgbClr val=\"" ++ toHexColor v ++
                      "\"/></a:solidFill></a:ln>"
                  | none => ""
                else ""
              | none => ""
            | none => ""
          "<c:spPr>" ++ fillPart ++ linePart ++ "</c:spPr>"
        else ""
      "<c:marker>" ++ "<c:symbol val=\"" ++ markerType ++ "\"/>" ++
        "<c:size val=\"" ++ ratDecimalString markerSize ++ "\"/>" ++ inner ++
        "</c:marker>"

/-- `_generateDataLabelsXML(dataLabels)`. -/
def generateDataLabelsXML (series : SeriesCfg) : String :=
  let xml := "<c:dLbls>"
  let xml := xml ++ (if series.showValueLabel then "<c:showVal val=\"1\"/>" else "")
  let xml := xml ++
    (if series.showCatNameLabel then "<c:showCatName val=\"1\"/>" else "")
  let xml := xml ++
    (if series.showSerNameLabel then "<c:showSerName val=\"1\"/>" else "")
  let xml := xml ++
    (if series.showPercentLabel then "<c:showPercent val=\"1\"/>" else "")
  xml ++ "<c:showLegendKey val=\"0\"/>" ++ "</c:dLbls>"

/-- `_generateTrendlineXML(trendline)`. -/
def generateTrendlineXML (series : SeriesCfg) : String :=
  let ttype := jsOrStr series.trendlineType "linear"
  let xml := "<c:trendline>" ++ "<c:trendlineType val=\"" ++ ttype ++ "\"/>"
  let xml := xml ++
    (if ttype = "poly" ∧ jsOrNat series.trendlineOrder 0 ≠ 0 then
      "<c:order val=\"" ++ toString (jsOrNat series.trendlineOrder 0) ++ "\"/>"
     else "")
  let xml := xml ++
    (if ttype = "movingAvg" ∧ jsOrNat series.trendlinePeriod 0 ≠ 0 then
      "<c:period val=\"" ++ toString (jsOrNat series.trendlinePeriod 0) ++ "\"/>"
     else "")
  let xml := xml ++
    (if jsOrQ series.trendlineForward 0 ≠ 0 then
      "<c:forward val=\"" ++ ratDecimalString (jsOrQ series.trendlineForward 0) ++ "\"/>"
     else "")
  let xml := xml ++
    (if jsOrQ series.trendlineBackward 0 ≠ 0 then
      "<c:backward val=\"" ++ ratDecimalString (jsOrQ series.trendlineBackward 0) ++ "\"/>"
     else "")
  let xml := xml ++
    (if series.trendlineDisplayEquation then "<c:dispEq val=\"1\"/>" else "")
  let xml := xml ++
    (if series.trendlineDisplayRSquared then "<c:dispRSqr val=\"1\"/>" else "")
  xml ++ "</c:trendline>"

/-- `_generateScatterSeriesXML(series, index, sheetName, dataInfo, chart)`. -/
def generateScatterSeriesXML (series : SeriesCfg) (index : Nat)
    (sheetName : String) (dataInfo : Option DataInfo) : String :=
  generateSeriesHeader series index sheetName dataInfo ++
    generateSeriesSpPr series ++
    generateMarkerXML series.marker ++
    (if series.hasDataLabels then generateDataLabelsXML series else "") ++
    (if series.hasTrendline then generateTrendlineXML series else "") ++
    generateXValXML series index sheetName dataInfo ++
    generateYValXML series index sheetName dataInfo ++
    "<c:smooth val=\"" ++ (if series.smooth then "1" else "0") ++ "\"/>" ++
    "</c:ser>"

/-- `_generateLineSeriesXML(series, index, sheetName, dataInfo, chart)`. -/
def generateLineSeriesXML (series : SeriesCfg) (index : Nat)
    (sheetName : String) (dataInfo : Option DataInfo) : String :=
  generateSeriesHeader series index sheetName dataInfo ++
    generateSeriesSpPr series ++
    generateMarkerXML series.marker ++
    generateCatXML series index sheetName dataInfo ++
    generateValXML series index sheetName dataInfo ++
    "<c:smooth val=\"" ++ (if series.smooth then "1" else "0") ++ "\"/>" ++
    "</c:ser>"

/-- `_generateBarSeriesXML(series, index, sheetName, dataInfo)`. -/
def generateBarSeriesXML (series : SeriesCfg) (index : Nat)
    (sheetName : String) (dataInfo : Option DataInfo) : String :=
  generateSeriesHeader series index sheetName dataInfo ++
    generateBarSpPr series ++
    generateCatXML series index sheetName dataInfo ++
    generateValXML series index sheetName dataInfo ++
    "</c:ser>"

/-- `_generateAreaSeriesXML(series, index, sheetName, dataInfo)`. -/
def generateAreaSeriesXML (series : SeriesCfg) (index : Nat)
    (sheetName : String) (dataInfo : Option DataInfo) : String :=
  generateSeriesHeader series index sheetName dataInfo ++
    generateBarSpPr series ++
    generateCatXML series index sheetName dataInfo ++
    generateValXML series index sheetName dataInfo ++
    "</c:ser>"

/-- `_generatePieSeriesXML(series, index, sheetName, dataInfo)`. -/
def generatePieSeriesXML (series : SeriesCfg) (index : Nat)
    (sheetName : String) (dataInfo : Option DataInfo) : String :=
  generateSeriesHeader series index sheetName dataInfo ++
    generateCatXML series index sheetName dataInfo ++
    generateValXML series index sheetName dataInfo ++
    "</c:ser>"

/-- `_generateScatterChartXML(chart, sheetName, dataInfo)`. -/
def generateScatterChartXML (chart : ChartCfg) (sheetName : String)
    (dataInfo : Option DataInfo) : String :=
  let scatterStyle := jsOrStr chart.scatterStyle "lineMarker"
  "<c:scatterChart>" ++
    "<c:scatterStyle val=\"" ++ scatterStyle ++ "\"/>" ++
    "<c:varyColors val=\"0\"/>" ++
    String.join (chart.series.enum.map (fun p =>
      generateScatterSeriesXML p.2 p.1 sheetName dataInfo)) ++
    "<c:axId val=\"" ++ toString chart.xAxis.id ++ "\"/>" ++
    "<c:axId val=\"" ++ toString chart.yAxis.id ++ "\"/>" ++
    "</c:scatterChart>"

/-- `_generateLineChartXML(chart, sheetName, dataInfo)`. -/
def generateLineChartXML (chart : ChartCfg) (sheetName : String)
    (dataInfo : Option DataInfo) : String :=
  let grouping := jsOrStr chart.grouping "standard"
  "<c:lineChart>" ++
    "<c:grouping val=\"" ++ grouping ++ "\"/>" ++
    "<c:varyColors val=\"0\"/>" ++
    String.join (chart.series.enum.map (fun p =>
      generateLineSeriesXML p.2 p.1 sheetName dataInfo)) ++
    "<c:marker val=\"1\"/>" ++
    "<c:axId val=\"" ++ toString chart.xAxis.id ++ "\"/>" ++
    "<c:axId val=\"" ++ toString chart.yAxis.id ++ "\"/>" ++
    "</c:lineChart>"

/-- `_generateBarChartXML(chart, sheetName, dataInfo, chartType)`. -/
def generateBarChartXML (chart : ChartCfg) (sheetName : String)
    (dataInfo : Option DataInfo) (chartType : String) : String :=
  let barDir := if chartType = "bar" then "bar" else "col"
  let grouping := jsOrStr chart.grouping "clustered"
  "<c:barChart>" ++
    "<c:barDir val=\"" ++ barDir ++ "\"/>" ++
    "<c:grouping val=\"" ++ grouping ++ "\"/>" ++
    "<c:varyColors val=\"0\"/>" ++
    String.join (chart.series.enum.map (fun p =>
      generateBarSeriesXML p.2 p.1 sheetName dataInfo)) ++
    "<c:gapWidth val=\"" ++ ratDecimalString (jsOrQ chart.gapWidth 150) ++
    "\"/>" ++
    (if grouping = "clustered" ∨ grouping = "stacked" ∨
        grouping = "percentStacked" then
      "<c:overlap val=\"" ++ ratDecimalString (jsOrQ chart.overlap 0) ++ "\"/>"
     else "") ++
    "<c:axId val=\"" ++ toString chart.xAxis.id ++ "\"/>" ++
    "<c:axId val=\"" ++ toString chart.yAxis.id ++ "\"/>" ++
    "</c:barChart>"

/-- `_generateAreaChartXML(chart, sheetName, dataInfo)`. -/
def generateAreaChartXML (chart : ChartCfg) (sheetName : String)
    (dataInfo : Option DataInfo) : String :=
  let grouping := jsOrStr chart.grouping "standard"
  "<c:areaChart>" ++
    "<c:grouping val=\"" ++ grouping ++ "\"/>" ++
    "<c:varyColors val=\"0\"/>" ++
    String.join (chart.series.enum.map (fun p =>
      generateAreaSeriesXML p.2 p.1 sheetName dataInfo)) ++
    "<c:axId val=\"" ++ toString chart.xAxis.id ++ "\"/>" ++
    "<c:axId val=\"" ++ toString chart.yAxis.id ++ "\"/>" ++
    "</c:areaChart>"

/-- `_generatePieChartXML(chart, sheetName, dataInfo)`. -/
def generatePieChartXML (chart : ChartCfg) (sheetName : String)
    (dataInfo : Option DataInfo) : String :=
  "<c:pieChart>" ++ "<c:varyColors val=\"1\"/>" ++
    String.join (chart.series.enum.map (fun p =>
      generatePieSeriesXML p.2 p.1 sheetName dataInfo)) ++
    "<c:firstSliceAng val=\"0\"/>" ++ "</c:pieChart>"

/-- `_generateDoughnutChartXML(chart, sheetName, dataInfo)`. -/
def generateDoughnutChartXML (chart : ChartCfg) (sheetName : String)
    (dataInfo : Option DataInfo) : String :=
  "<c:doughnutChart>" ++ "<c:varyColors val=\"1\"/>" ++
    String.join (chart.series.enum.map (fun p =>
      generatePieSeriesXML p.2 p.1 sheetName dataInfo)) ++
    "<c:firstSliceAng val=\"0\"/>" ++
    "<c:holeSize val=\"" ++ ratDecimalString (jsOrQ chart.holeSize 50) ++
    "\"/>" ++ "</c:doughnutChart>"

/-- `_generateChartTypeXML(chart, chartType, sheetName, dataInfo)`: dispatch
on the chart `type` string; unknown types fall back to the scatter
generator. -/
def generateChartTypeXML (chart : ChartCfg) (chartType : String)
    (sheetName : String) (dataInfo : Option DataInfo) : String :=
  if chartType = "scatter" then generateScatterChartXML chart sheetName dataInfo
  else if chartType = "line" then generateLineChartXML chart sheetName dataInfo
  else if chartType = "column" ∨ chartType = "bar" then
    generateBarChartXML chart sheetName dataInfo chartType
  else if chartType = "area" then generateAreaChartXML chart sheetName dataInfo
  else if chartType = "pie" then generatePieChartXML chart sheetName dataInfo
  else if chartType = "doughnut" then
    generateDoughnutChartXML chart sheetName dataInfo
  else generateScatterChartXML chart sheetName dataInfo

/-- `axis.logBase && !isNaN(axis.logBase) && axis.logBase > 1`. -/
def axisIsLogScale (axis : AxisCfg) : Bool :=
  match axis.logBase with
  | some j =>
    j.truthy && !j.isNaN &&
      (match j with
       | .fin q => q > 1
       | .inf => true
       | _ => false)
  | none => false

/-- `axis.maximum !== undefined && !isNaN(axis.maximum)` (and the `minimum`
analogue): a defined, non-`NaN` bound. -/
def definedNotNaN : Option JSNum → Bool
  | some j => !j.isNaN
  | none => false

/-- `_generateAxisXML(axis, position, crossAxisId, chartType, isSecondary)`. -/
def generateAxisXML (axis : AxisCfg) (position : String) (crossAxisId : Nat)
    (chartType : String := "scatter") (_isSecondary : Bool := false) : String :=
  let isLogScale := axisIsLogScale axis
  let isXAxisB : Bool := (position == "b") || (position == "t")
  let useCategoryAxisB : Bool := isXAxisB && (chartType != "scatter")
  let xml := if useCategoryAxisB then "<c:catAx>" else "<c:valAx>"
  let xml := xml ++ "<c:axId val=\"" ++ toString axis.id ++ "\"/>"
  let xml := xml ++ "<c:scaling>"
  let xml := xml ++
    (if isLogScale && !useCategoryAxisB then
      "<c:logBase val=\"" ++
        (match axis.logBase with
         | some j => jsNumToString j
         | none => "") ++ "\"/>"
     else "")
  let xml := xml ++ "<c:orientation val=\"minMax\"/>"
  let xml := xml ++
    (if !useCategoryAxisB then
      (if definedNotNaN axis.maximum then
        "<c:max val=\"" ++
          (match axis.maximum with
           | some j => jsNumToString j
           | none => "") ++ "\"/>"
       else "") ++
      (if definedNotNaN axis.minimum then
        "<c:min val=\"" ++
          (match axis.minimum with
           | some j => jsNumToString j
           | none => "") ++ "\"/>"
       else "")
     else "")
  let xml := xml ++ "</c:scaling>"
  let xml := xml ++ "<c:delete val=\"0\"/>"
  let xml := xml ++ "<c:axPos val=\"" ++ position ++ "\"/>"
  let xml := xml ++
    (if (!useCategoryAxisB) && (axis.majorGridlines != .off) then
      "<c:majorGridlines>" ++
        (match axis.majorGridlines with
         | .cfg color width =>
           if color.isSome ∨ width.isSome then
             let colorStr := jsOrStr color "D9D9D9"
             let w := jsRound (jsOrQ width (3 / 4) * 12700)
             "<c:spPr>" ++ "<a:ln w=\"" ++ toString w ++ "\">" ++
               "<a:solidFill><a:srgbClr val=\"" ++ colorStr ++
               "\"/></a:solidFill>" ++ "</a:ln>" ++ "</c:spPr>"
           else ""
         | _ => "") ++
        "</c:majorGridlines>"
     else "")
  let xml := xml ++
    (if (!useCategoryAxisB) && (match axis.minorGridlines with
        | .cfg _ _ => true
        | _ => false) then
      "<c:minorGridlines>" ++
        (match axis.minorGridlines with
         | .cfg color width =>
           if color.isSome ∨ width.isSome then
             let colorStr := jsOrStr color "E5E5E5"
             let w := jsRound (jsOrQ width (1 / 2) * 12700)
             "<c:spPr>" ++ "<a:ln w=\"" ++ toString w ++ "\">" ++
               "<a:solidFill><a:srgbClr val=\"" ++ colorStr ++
               "\"/></a:solidFill>" ++ "</a:ln>" ++ "</c:spPr>"
           else ""
         | _ => "") ++
        "</c:minorGridlines>"
     else "")
  let xml := xml ++
    (if axis.titleText ≠ "" then
      "<c:title>" ++ "<c:tx><c:rich>" ++ "<a:bodyPr/><a:lstStyle/>" ++
        "<a:p><a:pPr><a:defRPr/></a:pPr>" ++
        "<a:r><a:rPr lang=\"en-US\"/><a:t>" ++ escapeXml axis.titleText ++
        "</a:t></a:r>" ++ "</a:p></c:rich></c:tx>" ++
        "<c:layout/><c:overlay val=\"0\"/>" ++ "</c:title>"
     else "")
  let numFmtCode := jsOrStr axis.numberFormat
    (jsOrStr axis.numberFormatCode "General")
  let escapedFmtCode := escapeXmlAttr numFmtCode
  let sourceLinked :=
    if jsOrStr axis.numberFormat "" ≠ "" ∨ axis.numberLinkedToSource = some false
    then "0" else "1"
  let xml := xml ++ "<c:numFmt formatCode=\"" ++ escapedFmtCode ++
    "\" sourceLinked=\"" ++ sourceLinked ++ "\"/>"
  let xml := xml ++ "<c:majorTickMark val=\"out\"/>"
  let minorTickMark := jsOrStr axis.minorTickMark "none"
  let xml := xml ++ "<c:minorTickMark val=\"" ++ minorTickMark ++ "\"/>"
  let xml := xml ++ "<c:tickLblPos val=\"nextTo\"/>"
  let tickLblFontSize := jsOrQ axis.tickLabelFontSize (jsOrQ axis.fontSize 10)
  let xml := xml ++ "<c:txPr>" ++ "<a:bodyPr/>" ++ "<a:lstStyle/>" ++
    "<a:p>" ++ "<a:pPr><a:defRPr sz=\"" ++
    ratDecimalString (tickLblFontSize * 100) ++ "\"/></a:pPr>" ++
    "<a:endParaRPr lang=\"en-US\"/>" ++ "</a:p>" ++ "</c:txPr>"
  let xml := xml ++ "<c:crossAx val=\"" ++ toString crossAxisId ++ "\"/>"
  let xml := xml ++ "<c:crosses val=\"autoZero\"/>"
  if useCategoryAxisB then
    xml ++ "<c:auto val=\"1\"/>" ++ "<c:lblAlgn val=\"ctr\"/>" ++
      "<c:lblOffset val=\"100\"/>" ++ "</c:catAx>"
  else
    xml ++ "<c:crossBetween val=\"midCat\"/>" ++ "</c:valAx>"

/-- `_generateChartXML(chart, sheetName, dataInfo)`. -/
def generateChartXML (chart : ChartCfg) (sheetName : String)
    (dataInfo : Option DataInfo) : String :=
  let xml := "<?xml version=\"1.0\" encoding=\"UTF-8\" standalone=\"yes\"?>\n"
  let xml := xml ++ "<c:chartSpace xmlns:c=\"http://schemas.openxmlformats.org/drawingml/2006/chart\" xmlns:a=\"http://schemas.openxmlformats.org/drawingml/2006/main\" xmlns:r=\"http://schemas.openxmlformats.org/officeDocument/2006/relationships\">"
  let xml := xml ++ "<c:date1904 val=\"0\"/>"
  let xml := xml ++ "<c:lang val=\"en-US\"/>"
  let xml := xml ++ "<c:roundedCorners val=\"0\"/>"
  let xml := xml ++ "<c:chart>"
  let xml := xml ++
    (if chart.titleText ≠ "" then
      "<c:title>" ++ "<c:tx><c:rich>" ++ "<a:bodyPr/><a:lstStyle/>" ++
        "<a:p><a:pPr><a:defRPr/></a:pPr>" ++
        "<a:r><a:rPr lang=\"en-US\"/><a:t>" ++ escapeXml chart.titleText ++
        "</a:t></a:r>" ++ "</a:p></c:rich></c:tx>" ++
        "<c:layout/><c:overlay val=\"0\"/>" ++ "</c:title>" ++
        "<c:autoTitleDeleted val=\"0\"/>"
     else "<c:autoTitleDeleted val=\"1\"/>")
  let xml := xml ++ "<c:plotArea>"
  let xml := xml ++ "<c:layout/>"
  let chartType := jsOrStr (some chart.type) "scatter"
  let xml := xml ++ generateChartTypeXML chart chartType sheetName dataInfo
  let xml := xml ++ generateAxisXML chart.xAxis "b" chart.yAxis.id chartType
  let xml := xml ++ generateAxisXML chart.yAxis "l" chart.xAxis.id chartType
  let xml := xml ++
    (if chart.y2Axis.visible then
      generateAxisXML chart.x2Axis "t" chart.y2Axis.id chartType true ++
        generateAxisXML chart.y2Axis "r" chart.x2Axis.id chartType true
     else "")
  let xml := xml ++ "</c:plotArea>"
  let legendPos := match chart.legend with
    | some lg => jsOrStr lg.position "r"
    | none => "r"
  let xml := xml ++
    (if legendPos ≠ "none" then
      let legendFontSize := match chart.legend with
        | some lg => jsOrQ lg.fontSize 10
        | none => 10
      "<c:legend>" ++ "<c:legendPos val=\"" ++ legendPos ++ "\"/>" ++
        "<c:layout/>" ++ "<c:overlay val=\"0\"/>" ++ "<c:txPr>" ++
        "<a:bodyPr/>" ++ "<a:lstStyle/>" ++ "<a:p>" ++
        "<a:pPr><a:defRPr sz=\"" ++ ratDecimalString (legendFontSize * 100) ++
        "\"/></a:pPr>" ++ "<a:endParaRPr lang=\"en-US\"/>" ++ "</a:p>" ++
        "</c:txPr>" ++ "</c:legend>"
     else "")
  let xml := xml ++ "<c:plotVisOnly val=\"1\"/>"
  let xml := xml ++ "<c:dispBlanksAs val=\"gap\"/>"
  let xml := xml ++ "<c:showDLblsOverMax val=\"0\"/>"
  let xml := xml ++ "</c:chart>"
  let xml := xml ++ "<c:spPr>"
  let bgColor := jsOrStr chart.backgroundColor "FFFFFF"
  let xml := xml ++ "<a:solidFill><a:srgbClr val=\"" ++ bgColor ++
    "\"/></a:solidFill>"
  let xml := xml ++
    (if chart.showBorder = false then "<a:ln><a:noFill/></a:ln>" else "")
  let xml := xml ++ "</c:spPr>"
  let xml := xml ++ "<c:printSettings><c:headerFooter/><c:pageMargins b=\"0.75\" l=\"0.7\" r=\"0.7\" t=\"0.75\" header=\"0.3\" footer=\"0.3\"/><c:pageSetup/></c:printSettings>"
  xml ++ "</c:chartSpace>"


/-!
## The workbook model and its public write operations

`XlsxWriter` state: sheets plus the `sheetMap` name index, the shared-string
table, the format registry (`formats`, `formatMap`, `customNumFormats`,
`nextNumFormatId`), and per-sheet column/row overrides and merge lists.  The
`'A1'`-string overloads of the write methods resolve through `xlCell2Ind` and
then take the numeric path embedded here.  Numeric `sheet` arguments become
the name `Sheet${n}` before lookup, so sheets are addressed by name.
-/

/-- Column override record (`{ width, format, hidden }`). -/
structure ColInfo where
  width : Option ℚ
  format : Option FmtRef
  hidden : Bool
  deriving DecidableEq, Repr

/-- Row override record (`{ height, format, hidden }`). -/
structure RowInfo where
  height : Option ℚ
  format : Option FmtRef
  hidden : Bool
  deriving DecidableEq, Repr

/-- A recorded merge rectangle (already converted to 1-based bounds). -/
structure MergeRect where
  startRow : Nat
  startCol : Nat
  endRow : Nat
  endCol : Nat
  deriving DecidableEq, Repr

/-- A sheet record as pushed by `_getOrCreateSheet`/`writeData`
(`comments` are not modelled; no claim touches them). -/
structure SheetObj where
  name : String
  data : List (List (Option CellData)) := []
  startRow : Nat := 1
  startCol : Nat := 1
  chart : Option ChartCfg := none
  deriving Repr

/-- The `XlsxWriter` instance state. -/
structure Workbook where
  filename : String
  sheets : List SheetObj := []
  sheetMap : JSMap String Nat := []
  sst : SST := {}
  formats : List Format := []
  formatMap : JSMap FormatKey Nat := []
  customNumFormats : JSMap String Nat := []
  nextNumFormatId : Nat := 164
  columnInfo : JSMap Nat (JSMap Nat ColInfo) := []
  rowInfo : JSMap Nat (JSMap Nat RowInfo) := []
  mergeCells : JSMap Nat (List MergeRect) := []
  deriving Repr

/-- `addFormat(properties)`: dedup through `formatMap` on the canonical key;
new formats get `xfIndex = formats.length` and are pushed; a non-`General`
number-format string resolves to its builtin id, a known custom id, or the
next free custom id starting at 164. -/
def addFormat (wb : Workbook) (p : FormatProps) : Format × Workbook :=
  let format := mkFormat p
  let key := format.getKey
  match jsMapGet wb.formatMap key with
  | some i => (wb.formats.getD i format, wb)
  | none =>
    let xf := wb.formats.length
    let f1 := { format with xfIndex := some xf }
    if f1.numFormat ≠ "" ∧ f1.numFormat ≠ "General" then
      match numFormatsLookup f1.numFormat with
      | some bid =>
        let f2 := { f1 with numFormatIndex := bid }
        let wb2 := { wb with
          formats := wb.formats ++ [f2]
          formatMap := jsMapSet wb.formatMap key xf }
        (f2, wb2)
      | none =>
        if jsMapHas wb.customNumFormats f1.numFormat = false then
          let f2 := { f1 with numFormatIndex := wb.nextNumFormatId }
          let wb2 := { wb with
            formats := wb.formats ++ [f2]
            formatMap := jsMapSet wb.formatMap key xf
            customNumFormats :=
              jsMapSet wb.customNumFormats f1.numFormat wb.nextNumFormatId
            nextNumFormatId := wb.nextNumFormatId + 1 }
          (f2, wb2)
        else
          let f2 := { f1 with numFormatIndex :=
            (jsMapGet wb.customNumFormats f1.numFormat).getD 0 }
          let wb2 := { wb with
            formats := wb.formats ++ [f2]
            formatMap := jsMapSet wb.formatMap key xf }
          (f2, wb2)
    else
      let wb2 := { wb with
        formats := wb.formats ++ [f1]
        formatMap := jsMapSet wb.formatMap key xf }
      (f1, wb2)

/-- The `XlsxWriter` constructor: normalise the filename extension, start
with empty state and register the default format. -/
def newWorkbook (filename : String := "output.xlsx") : Workbook :=
  let fn := if strEndsWith filename ".xlsx" then filename
    else filename ++ ".xlsx"
  (addFormat { filename := fn } {}).2

/-- `_getOrCreateSheet(sheet)`: look the name up in `sheetMap`; on a miss
push a fresh sheet record and register it. -/
def getOrCreateSheet (wb : Workbook) (sheetName : String) : Nat × Workbook :=
  match jsMapGet wb.sheetMap sheetName with
  | some i => (i, wb)
  | none =>
    let i := wb.sheets.length
    (i, { wb with
          sheets := wb.sheets ++
            [{ name := sheetName, data := [], startRow := 1, startCol := 1,
               chart := none }],
          sheetMap := jsMapSet wb.sheetMap sheetName i })

/-- `while (arr.length <= n) arr.push(x)`. -/
def padToLength {α : Type} (l : List α) (n : Nat) (x : α) : List α :=
  l ++ List.replicate (n + 1 - l.length) x

/-- `write(row, col, value, format, sheet)` on the numeric path: grow the
grid, process the value (interning strings) and store the cell; update the
sheet bounds with `Math.min(startRow || 1, row + 1)`. -/
def write (wb : Workbook) (row col : Nat) (value : JSValue)
    (format : Option FmtRef) (sheet : String := "Sheet1") : Workbook :=
  let (sheetIndex, wb) := getOrCreateSheet wb sheet
  match wb.sheets.get? sheetIndex with
  | none => wb
  | some sheetObj =>
    let data := padToLength sheetObj.data row []
    let rowList := padToLength (data.getD row []) col none
    let (cellData, sst) := processCell value format wb.sst
    let rowList := rowList.set col (some cellData)
    let data := data.set row rowList
    let sheetObj := { sheetObj with
      data := data,
      startRow := min (if sheetObj.startRow = 0 then 1 else sheetObj.startRow)
        (row + 1),
      startCol := min (if sheetObj.startCol = 0 then 1 else sheetObj.startCol)
        (col + 1) }
    { wb with sheets := wb.sheets.set sheetIndex sheetObj, sst := sst }

/-- `writeRow(row, col, data, format, sheet)`. -/
def writeRow (wb : Workbook) (row col : Nat) (data : List JSValue)
    (format : Option FmtRef) (sheet : String := "Sheet1") : Workbook :=
  (data.enum.foldl (fun acc p => write acc row (col + p.1) p.2 format sheet) wb)

/-- `writeColumn(row, col, data, format, sheet)`. -/
def writeColumn (wb : Workbook) (row col : Nat) (data : List JSValue)
    (format : Option FmtRef) (sheet : String := "Sheet1") : Workbook :=
  (data.enum.foldl (fun acc p => write acc (row + p.1) col p.2 format sheet) wb)

/-- `setColumn(firstCol, lastCol, width, format, options, sheet)` on the
numeric path (0-based first/last column). -/
def setColumn (wb : Workbook) (firstCol lastCol : Nat) (width : Option ℚ)
    (format : Option FmtRef) (hidden : Bool := false)
    (sheet : String := "Sheet1") : Workbook :=
  let startCol := firstCol + 1
  let endCol := lastCol + 1
  let (sheetIndex, wb) := getOrCreateSheet wb sheet
  let info := (jsMapGet wb.columnInfo sheetIndex).getD []
  let info := (List.range (endCol + 1 - startCol)).foldl
    (fun acc i =>
      jsMapSet acc (startCol + i)
        { width := width, format := format, hidden := hidden }) info
  { wb with columnInfo := jsMapSet wb.columnInfo sheetIndex info }

/-- `setRow(row, height, format, options, sheet)`. -/
def setRow (wb : Workbook) (row : Nat) (height : Option ℚ)
    (format : Option FmtRef) (hidden : Bool := false)
    (sheet : String := "Sheet1") : Workbook :=
  let (sheetIndex, wb) := getOrCreateSheet wb sheet
  let info := (jsMapGet wb.rowInfo sheetIndex).getD []
  let info := jsMapSet info (row + 1)
    { height := height, format := format, hidden := hidden }
  { wb with rowInfo := jsMapSet wb.rowInfo sheetIndex info }

/-- `mergeRange(firstRow, firstCol, lastRow, lastCol, data, format, sheet)`
on the numeric path: record the 1-based rectangle and optionally write the
value into its top-left cell. -/
def mergeRange (wb : Workbook) (firstRow firstCol lastRow lastCol : Nat)
    (data : Option JSValue) (format : Option FmtRef)
    (sheet : String := "Sheet1") : Workbook :=
  let (sheetIndex, wb) := getOrCreateSheet wb sheet
  let rects := (jsMapGet wb.mergeCells sheetIndex).getD []
  let rects := rects ++
    [{ startRow := firstRow + 1, startCol := firstCol + 1,
       endRow := lastRow + 1, endCol := lastCol + 1 }]
  let wb := { wb with mergeCells := jsMapSet wb.mergeCells sheetIndex rects }
  match data with
  | some v => write wb firstRow firstCol v format sheet
  | none => wb

/-- `insertChart(row, col, chart, options, sheet)`: position the chart from
the anchor cell and the pixel offsets, and attach it (replacing any previous
chart) to the sheet. -/
def insertChart (wb : Workbook) (row col : Nat) (chart : ChartCfg)
    (xOffset : Option ℚ := none) (yOffset : Option ℚ := none)
    (sheet : String := "Sheet1") : Workbook :=
  let (sheetIndex, wb) := getOrCreateSheet wb sheet
  let chart := { chart with
    x := jsOrQ xOffset 0 + col * 64,
    y := jsOrQ yOffset 0 + row * 20 }
  match wb.sheets.get? sheetIndex with
  | none => wb
  | some sheetObj =>
    { wb with sheets :=
        wb.sheets.set sheetIndex { sheetObj with chart := some chart } }

/-- The options bag of `writeData`. -/
structure WriteDataOptions where
  xlPos : Option String := none
  header : Option (List JSValue) := none
  chart : Option ChartCfg := none

/-- `writeData(data, sheet, options)`: find an existing sheet by name with
`findIndex` (note: a sheet created here is pushed to `sheets` but never
registered in `sheetMap`), then fill the grid from the anchor position. -/
def writeData (wb : Workbook) (data : List (List JSValue))
    (sheet : String := "Sheet1") (options : WriteDataOptions := {}) :
    Workbook :=
  let sheetName := sheet
  let pos := xlCell2IndStr (jsOrStr options.xlPos "A1")
  let startRow := pos.1
  let startCol := pos.2
  let fullData := match options.header with
    | some h => h :: data
    | none => data
  let existing := wb.sheets.findIdx? (fun so => so.name = sheetName)
  let (sheetIndex, wb) := match existing with
    | some i => (i, wb)
    | none =>
      let newSheet : SheetObj :=
        { name := sheetName, data := [], startRow := startRow,
          startCol := startCol, chart := options.chart }
      (wb.sheets.length, { wb with sheets := wb.sheets ++ [newSheet] })
  match wb.sheets.get? sheetIndex with
  | none => wb
  | some sheetObj =>
    let step := fun (st : List (List (Option CellData)) × SST)
        (rp : Nat × List JSValue) =>
      let rowIdx := startRow - 1 + rp.1
      let dataAcc := padToLength st.1 rowIdx []
      let init : List (Option CellData) × SST := (dataAcc.getD rowIdx [], st.2)
      let (rowAcc, sst) := rp.2.enum.foldl
        (fun (st2 : List (Option CellData) × SST) (cp : Nat × JSValue) =>
          let colIdx := startCol - 1 + cp.1
          let row2 := padToLength st2.1 colIdx none
          let (cd, sst2) := processCell cp.2 none st2.2
          (row2.set colIdx (some cd), sst2)) init
      (dataAcc.set rowIdx rowAcc, sst)
    let (newData, sst) := fullData.enum.foldl step (sheetObj.data, wb.sst)
    let sheetObj := { sheetObj with
      data := newData,
      startRow := min (if sheetObj.startRow = 0 then startRow
        else sheetObj.startRow) startRow,
      startCol := min (if sheetObj.startCol = 0 then startCol
        else sheetObj.startCol) startCol,
      chart := match options.chart with
        | some c => some c
        | none => sheetObj.chart }
    { wb with sheets := wb.sheets.set sheetIndex sheetObj, sst := sst }

/-!
## The per-sheet `sheetData` XML generator
-/

/-- The cell `type` attribute text. -/
def ctypeStr : CType → String
  | .n => "n"
  | .strT => "str"
  | .s => "s"
  | .b => "b"

/-- `${cell.value}` rendering. -/
def cvalToString : CVal → String
  | .str sv => sv
  | .num j => jsNumToString j
  | .idx n => toString n

/-- One `<c>` element of `_generateSheetDataXML`'s inner loop. -/
def generateCellXML (rowNum : Nat) (colNum : Nat) (cell : CellData) : String :=
  let cellRef := xlColumn colNum ++ toString rowNum
  let styleAttr := match cell.format with
    | some f =>
      match f.xfIndex with
      | some xf => " s=\"" ++ toString xf ++ "\""
      | none => ""
    | none => ""
  if cell.isFormula then
    "<c r=\"" ++ cellRef ++ "\"" ++ styleAttr ++ "><f>" ++
      escapeXml (cvalToString cell.value) ++ "</f></c>"
  else if cell.value = .str "" then
    if styleAttr ≠ "" then "<c r=\"" ++ cellRef ++ "\"" ++ styleAttr ++ "/>"
    else ""
  else if cell.ctype = .n then
    "<c r=\"" ++ cellRef ++ "\"" ++ styleAttr ++ "><v>" ++
      cvalToString cell.value ++ "</v></c>"
  else
    "<c r=\"" ++ cellRef ++ "\" t=\"" ++ ctypeStr cell.ctype ++ "\"" ++
      styleAttr ++ "><v>" ++ cvalToString cell.value ++ "</v></c>"

/-- `_generateSheetDataXML(sheet, sheetIndex)`: emit a `<row>` element for
every grid row that has content or a row override, skipping empty cells
unless they carry a style. -/
def generateSheetDataXML (sheet : SheetObj) (rowInfoObj : JSMap Nat RowInfo) :
    String :=
  String.join (sheet.data.enum.map (fun rp =>
    let row := rp.2
    if row.length = 0 then ""
    else
      let hasContent := row.any (fun cell =>
        match cell with
        | some cd => cd.value ≠ .str ""
        | none => false)
      let rowInfo := jsMapGet rowInfoObj (rp.1 + 1)
      if !hasContent && rowInfo.isNone then ""
      else
        let rowNum := rp.1 + 1
        let maxCol := row.length
        let rowAttrs := "r=\"" ++ toString rowNum ++ "\" spans=\"1:" ++
          toString maxCol ++ "\""
        let rowAttrs := rowAttrs ++
          (match rowInfo with
           | some ri =>
             (if jsOrQ ri.height 0 ≠ 0 then
               " ht=\"" ++ ratDecimalString (jsOrQ ri.height 0) ++
                 "\" customHeight=\"1\""
              else "") ++
             (if ri.hidden then " hidden=\"1\"" else "") ++
             (match ri.format with
              | some f =>
                if jsOrNat f.xfIndex 0 ≠ 0 then
                  " s=\"" ++ toString (jsOrNat f.xfIndex 0) ++
                    "\" customFormat=\"1\""
                else ""
              | none => "")
           | none => "")
        "<row " ++ rowAttrs ++ ">" ++
          String.join (row.enum.map (fun cp =>
            match cp.2 with
            | none => ""
            | some cell => generateCellXML rowNum (cp.1 + 1) cell)) ++
          "</row>"))

/-!
## The save path

`save()` adds every part to the JSZip archive (`_addRels`, `_addDocProps`,
`_addXl`, then `[Content_Types].xml`) and compresses it; `saveAs(filename)`
awaits `save()` first and only then — in the Node branch — validates the
resolved output path before `fs.writeFileSync`.  The archive is modelled by
its ordered list of entry paths; `path.resolve` is external, so `saveAs`
takes the already-resolved path and the working directory as inputs.
-/

/-- The `zip.file` entry paths produced by `_addWorksheets`, in call order. -/
def worksheetEntryPaths (wb : Workbook) : List String :=
  (wb.sheets.enum.map (fun sp =>
    ["xl/worksheets/sheet" ++ toString (sp.1 + 1) ++ ".xml"] ++
      (if sp.2.chart.isSome then
        ["xl/worksheets/_rels/sheet" ++ toString (sp.1 + 1) ++ ".xml.rels"]
       else []))).flatten

/-- The `zip.file` entry paths produced by `_addCharts`: chart, drawing and
drawing-rels parts for every chart collected from the sheets. -/
def chartEntryPaths (wb : Workbook) : List String :=
  let chartCount := (wb.sheets.filter (fun so => so.chart.isSome)).length
  ((List.range chartCount).map (fun i =>
    ["xl/charts/chart" ++ toString (i + 1) ++ ".xml",
     "xl/drawings/drawing" ++ toString (i + 1) ++ ".xml",
     "xl/drawings/_rels/drawing" ++ toString (i + 1) ++ ".xml.rels"])).flatten

/-- All archive entry paths added by one `save()` call, in `zip.file` call
order. -/
def saveEntryPaths (wb : Workbook) : List String :=
  ["_rels/.rels", "docProps/app.xml", "docProps/core.xml",
   "xl/styles.xml", "xl/theme/theme1.xml", "xl/workbook.xml",
   "xl/_rels/workbook.xml.rels", "xl/sharedStrings.xml"] ++
    worksheetEntryPaths wb ++ chartEntryPaths wb ++ ["[Content_Types].xml"]

/-- The outcome of `saveAs`: the archive entries generated by the inner
`save()` call and the result of the subsequent path validation (`ok` means
the flow reached `fs.writeFileSync`). -/
structure SaveAsOutcome where
  zipEntries : List String
  result : Except String Unit
  deriving Repr

/-- The `saveAs` working-directory containment check:
`resolvedPath.startsWith(baseDir + path.sep) || resolvedPath === baseDir`. -/
def pathWithinBase (resolvedPath baseDir : String) : Bool :=
  strStartsWith resolvedPath (baseDir ++ "/") || (resolvedPath == baseDir)

/-- The `saveAs` extension check:
`resolvedPath.toLowerCase().endsWith('.xlsx')`. -/
def hasXlsxExtension (resolvedPath : String) : Bool :=
  strEndsWith (strToLower resolvedPath) ".xlsx"

/-- `saveAs(filename)` (Node branch): `await this.save()` — which generates
every archive entry — then validate the resolved path and extension,
throwing after generation but before any file-system write. -/
def saveAsNode (wb : Workbook) (resolvedPath baseDir : String) :
    SaveAsOutcome :=
  let entries := saveEntryPaths wb
  if !pathWithinBase resolvedPath baseDir then
    { zipEntries := entries,
      result := .error
        "Security error: output path must be within working directory" }
  else if !hasXlsxExtension resolvedPath then
    { zipEntries := entries,
      result := .error
        "Security error: output file must have .xlsx extension" }
  else
    { zipEntries := entries, result := .ok () }


/-!
## `deepMerge` and prototype-pollution protection

`deepMerge(target, source)` copies the target's own enumerable entries
(`{...target}`), then walks `Object.keys(source)` in insertion order,
skipping the keys `__proto__`, `constructor` and `prototype`, recursing into
plain-object values (merging onto `result[key] || {}`) and assigning
everything else.  JavaScript values are embedded as the `JVal` tree; object
spread over arrays and strings produces their index-keyed entries.  The
recursion is embedded with an explicit fuel argument bounded by the nesting
depth of the source (the JavaScript recursion descends one object level per
call, so any fuel above that depth computes the same result).
-/

/-- A JavaScript value tree for `deepMerge`. -/
inductive JVal where
  | vnull
  | vundef
  | bool (b : Bool)
  | num (j : JSNum)
  | str (s : String)
  | arr (elems : List JVal)
  | obj (fields : List (String × JVal))

/-- JavaScript truthiness of a `JVal`. -/
def jvalTruthy : JVal → Bool
  | .vnull => false
  | .vundef => false
  | .bool b => b
  | .num j => j.truthy
  | .str s => s ≠ ""
  | .arr _ => true
  | .obj _ => true

/-- `v && typeof v === 'object' && !Array.isArray(v)`: a truthy plain
object. -/
def isMergeObject : JVal → Bool
  | .obj _ => true
  | _ => false

/-- The own enumerable entries of a value, as object spread and
`Object.keys` see them: object fields, index-keyed array elements,
index-keyed string characters, nothing for primitives. -/
def ownEntries : JVal → List (String × JVal)
  | .obj fs => fs
  | .arr es => es.enum.map (fun p => (toString p.1, p.2))
  | .str s => s.data.enum.map (fun p => (toString p.1, .str (String.singleton p.2)))
  | _ => []

/-- Property read on an entry list (first match, as objects hold unique
keys). -/
def jsObjGet (fields : List (String × JVal)) (k : String) : Option JVal :=
  (fields.find? (fun p => p.1 = k)).map (·.2)

/-- Property assignment `result[key] = v`. -/
def jsObjSet (fields : List (String × JVal)) (k : String) (v : JVal) :
    List (String × JVal) :=
  if fields.any (fun p => p.1 = k) then
    fields.map (fun p => if p.1 = k then (k, v) else p)
  else
    fields ++ [(k, v)]

/-- `result[key] || {}`. -/
def jsGetOrEmptyObj (fields : List (String × JVal)) (k : String) : JVal :=
  match jsObjGet fields k with
  | some v => if jvalTruthy v then v else .obj []
  | none => .obj []

/-- The three keys `deepMerge` refuses to copy. -/
def isBannedKey (k : String) : Bool :=
  k = "__proto__" || k = "constructor" || k = "prototype"

/-- Nesting depth of a `JVal` (objects and arrays add a level). -/
def jdepth : JVal → Nat
  | .obj fs => jdepthFields fs + 1
  | .arr es => jdepthElems es + 1
  | _ => 0
where
  /-- Depth of an object field list. -/
  jdepthFields : List (String × JVal) → Nat
    | [] => 0
    | (_, v) :: rest => max (jdepth v) (jdepthFields rest)
  /-- Depth of an array element list. -/
  jdepthElems : List JVal → Nat
    | [] => 0
    | v :: rest => max (jdepth v) (jdepthElems rest)

/-- The `for (const key of Object.keys(source))` loop of `deepMerge`,
parameterised over the recursive call for nested objects. -/
def mergeFieldsWith (rec : JVal → JVal → JVal) :
    List (String × JVal) → List (String × JVal) → List (String × JVal)
  | acc, [] => acc
  | acc, (k, v) :: rest =>
    if isBannedKey k then mergeFieldsWith rec acc rest
    else if isMergeObject v then
      mergeFieldsWith rec (jsObjSet acc k (rec (jsGetOrEmptyObj acc k) v)) rest
    else mergeFieldsWith rec (jsObjSet acc k v) rest

/-- Fuelled `deepMerge` body: `{...target}` then fold the source entries.
One fuel unit is spent per object level, so any fuel above the source's
nesting depth computes the JavaScript result. -/
def deepMergeF : Nat → JVal → JVal → JVal
  | 0, t, _ => .obj (ownEntries t)
  | fuel + 1, t, s =>
    .obj (mergeFieldsWith (deepMergeF fuel) (ownEntries t) (ownEntries s))

/-- `deepMerge(target, source)`. -/
def deepMerge (target source : JVal) : JVal :=
  deepMergeF (jdepth source + 1) target source

mutual

/-- Deep removal of the banned keys along object paths (arrays and
primitives are atomic, as `deepMerge` copies them wholesale). -/
def scrub : JVal → JVal
  | .obj fs => .obj (scrubFields fs)
  | v => v

/-- `scrub` on an object field list. -/
def scrubFields : List (String × JVal) → List (String × JVal)
  | [] => []
  | (k, v) :: rest =>
    if isBannedKey k then scrubFields rest
    else (k, scrub v) :: scrubFields rest

end


/-!
## Specification-side helpers for the shared-string table
-/

/-- The string a written value interns, if any: non-empty, non-formula plain
strings. -/
def internedString? : JSValue → Option String
  | .str s => if s ≠ "" ∧ strStartsWith s "=" = false then some s else none
  | _ => none

/-- Append a string unless it is already present. -/
def insertNewString (acc : List String) (s : String) : List String :=
  if s ∈ acc then acc else acc ++ [s]

/-- The distinct members of a string list in first-occurrence order. -/
def distinctInOrder (ss : List String) : List String :=
  ss.foldl insertNewString []

/-- The association list pairing each string of `l` with its index, starting
at `n` (the shape `sharedStringsMap` always has). -/
def enumMapFrom (n : Nat) : List String → JSMap String Nat
  | [] => []
  | s :: rest => (s, n) :: enumMapFrom (n + 1) rest

/-- Well-formedness of the shared-string state: the map is exactly the
index of the list. -/
def SSTWF (st : SST) : Prop :=
  st.sharedStringsMap = enumMapFrom 0 st.sharedStrings

/-- The shared-string-list update performed by processing one value. -/
def internStep (acc : List String) (v : JSValue) : List String :=
  match internedString? v with
  | some s => insertNewString acc s
  | none => acc

/-!
## Style-registry invariants (C6, C7)
-/

/-- The format map a sequence of registrations builds: each key paired with
its position, counting from `n`. -/
def keyIndexFrom (n : Nat) : List FormatKey → JSMap FormatKey Nat
  | [] => []
  | k :: rest => (k, n) :: keyIndexFrom (n + 1) rest

/-- Well-formedness of the style registry: `formatMap` indexes the stored
formats by their keys, the keys are distinct, and each stored format's
`xfIndex` is its position. -/
def FormatsWF (wb : Workbook) : Prop :=
  wb.formatMap = keyIndexFrom 0 (wb.formats.map Format.getKey) ∧
  (wb.formats.map Format.getKey).Nodup ∧
  ∀ p ∈ wb.formats.enum, p.2.xfIndex = some p.1

instance (wb : Workbook) : Decidable (FormatsWF wb) := by
  unfold FormatsWF
  infer_instance

/-- A number-format string that triggers the custom-id branch of
`addFormat`: non-empty, not `General`, and not a builtin. -/
def isCustomNF (s : String) : Bool :=
  s ≠ "" && s ≠ "General" && (numFormatsLookup s).isNone

/-- The distinct custom number-format strings of a registration sequence,
in first-occurrence order. -/
def customSeqOf (nfs : List String) : List String :=
  distinctInOrder (nfs.filter (fun s => isCustomNF s))

/-- The custom-number-format bookkeeping after registering formats whose
number-format strings are `nfs`: ids enumerate the distinct custom strings
from 164, the next free id follows them, and every stored format carries
the id its string resolves to. -/
def CustomsInv (wb : Workbook) (nfs : List String) : Prop :=
  wb.customNumFormats = enumMapFrom 164 (customSeqOf nfs) ∧
  wb.nextNumFormatId = 164 + (customSeqOf nfs).length ∧
  (∀ f ∈ wb.formats, f.numFormat = "General" ∨ f.numFormat ∈ nfs) ∧
  (∀ f ∈ wb.formats, f.numFormat ≠ "General" →
    ∀ bid, numFormatsLookup f.numFormat = some bid → f.numFormatIndex = bid) ∧
  (∀ f ∈ wb.formats, isCustomNF f.numFormat = true →
    jsMapGet wb.customNumFormats f.numFormat = some f.numFormatIndex)

instance (wb : Workbook) (nfs : List String) : Decidable (CustomsInv wb nfs) := by
  unfold CustomsInv
  infer_instance

/-- Registering a list of format specs left to right. -/
def addFormats (wb : Workbook) (ps : List FormatProps) : Workbook :=
  ps.foldl (fun w p => (addFormat w p).2) wb

/-!
## Chart XML scanners and a concrete scatter chart (C8)
-/

/-- Collect the digit runs that follow each occurrence of `pat`. -/
def scanNumTokens (pat : List Char) : List Char → List String
  | [] => []
  | c :: rest =>
    (if pat.isPrefixOf (c :: rest) then
      [String.mk (((c :: rest).drop pat.length).takeWhile (fun d => d.isDigit))]
     else []) ++ scanNumTokens pat rest

/-- All values carried by `c:axId` elements of a chart XML string. -/
def axIdValuesIn (s : String) : List String :=
  scanNumTokens "<c:axId val=\"".toList s.toList

/-- All values carried by `c:crossAx` elements of a chart XML string. -/
def crossAxValuesIn (s : String) : List String :=
  scanNumTokens "<c:crossAx val=\"".toList s.toList

/-- A scatter series over four data rows (the block's fifth row holds the
headers). -/
def scatterDemoSeries (vals : List ℚ) : SeriesCfg :=
  { nameText := "S"
    xValues := [.num (.fin 1), .num (.fin 2), .num (.fin 3), .num (.fin 4)]
    yValues := vals.map (fun q => .num (.fin q)) }

/-- A two-series scatter chart; axis ids mirror `generateId()` output, the
secondary axes are hidden as in `getDefaultChart`. -/
def scatterDemoChart : ChartCfg :=
  { type := "scatter"
    xAxis := { id := 111 }
    yAxis := { id := 222 }
    x2Axis := { id := 333, visible := false }
    y2Axis := { id := 444, visible := false }
    series := [scatterDemoSeries [10, 20, 30, 40],
               scatterDemoSeries [5, 6, 7, 8]] }

/-- The data origin `_addWorksheets` records for a 5-row, 3-column block
written at the default `writeData` position. -/
def scatterDemoInfo : DataInfo := ⟨1, 1, 5, 3⟩

/-- The chart XML when the sheet carries the recorded data origin. -/
def scatterDemoXMLRef : String :=
  generateChartXML scatterDemoChart "Sheet1" (some scatterDemoInfo)

/-- The chart XML when no data origin is recorded. -/
def scatterDemoXMLLit : String :=
  generateChartXML scatterDemoChart "Sheet1" none

/-- A value axis carrying log-base, minimum and maximum scaling (C9). -/
def scatterScaledAxis : AxisCfg :=
  { id := 111
    logBase := some (.fin 10)
    minimum := some (.fin 1)
    maximum := some (.fin 100) }

/-- A merge target for the prototype-pollution check. -/
def pollutionT : JVal := .obj [("a", .num (.fin 1))]

/-- A merge source carrying a `__proto__` payload. -/
def pollutionS1 : JVal :=
  .obj [("b", .num (.fin 2)), ("__proto__", .obj [("polluted", .bool true)])]

/-- The same source without the `__proto__` payload. -/
def pollutionS2 : JVal := .obj [("b", .num (.fin 2))]

/-!
## Concrete instances used by the theorems
-/

/-- A demonstration write sequence: a repeated string, an empty string, a
formula, a `NaN` and a boolean. -/
def demoWrittenValues : List JSValue :=
  [.str "a", .str "", .str "=F", .num .nan, .str "a", .boolean true]

/-- The shared-string state after processing `demoWrittenValues`. -/
def sstDemo : SST :=
  processValues demoWrittenValues { sharedStrings := [], sharedStringsMap := [] }

/-- A writer into which the three non-finite numbers and one ordinary
number are written. -/
def wbNonFinite : Workbook :=
  let wb := newWorkbook "output.xlsx"
  let wb := write wb 0 0 (.num .inf) none "Sheet1"
  let wb := write wb 0 1 (.num .negInf) none "Sheet1"
  let wb := write wb 0 2 (.num .nan) none "Sheet1"
  write wb 1 0 (.num (.fin 42)) none "Sheet1"

/-- A writer holding a single unformatted `NaN` cell. -/
def wbNaNOnly : Workbook :=
  write (newWorkbook "output.xlsx") 0 0 (.num .nan) none "Sheet1"

/-- A fresh writer on which `writeData` creates `Sheet1` and a following
`write` addresses the same sheet name. -/
def wbDupSheets : Workbook :=
  write (writeData (newWorkbook "output.xlsx") [[.num (.fin 1)]] "Sheet1" {})
    0 0 (.num (.fin 2)) none "Sheet1"

/-!
## Theorems

Helper lemmas first, then one named theorem per claim (with a witness where
the theorem carries hypotheses).
-/

/-- The fuel of `xlColumnCharsCore` is irrelevant once it covers the
value. -/
theorem xlColumnCharsCore_irrel (n : Nat) :
    ∀ fuel1 fuel2 acc, n ≤ fuel1 → n ≤ fuel2 →
      xlColumnCharsCore fuel1 n acc = xlColumnCharsCore fuel2 n acc := by
  induction n using Nat.strong_induction_on with
  | _ n ih =>
    intro fuel1 fuel2 acc h1 h2
    match n, fuel1, fuel2 with
    | 0, f1, f2 =>
      cases f1 <;> cases f2 <;> rfl
    | Nat.succ m, Nat.succ f1, Nat.succ f2 =>
      rw [xlColumnCharsCore, xlColumnCharsCore]
      exact ih (m / 26) (Nat.lt_succ_of_le (Nat.div_le_self m 26)) f1 f2 _
        (le_trans (Nat.div_le_self m 26) (Nat.le_of_succ_le_succ h1))
        (le_trans (Nat.div_le_self m 26) (Nat.le_of_succ_le_succ h2))

/-- One-step unfolding of the `xlColumn` loop. -/
theorem xlColumnChars_succ (n : Nat) (acc : List Char) :
    xlColumnChars (n + 1) acc
      = xlColumnChars (n / 26) (Char.ofNat (65 + n % 26) :: acc) := by
  unfold xlColumnChars
  rw [xlColumnCharsCore]
  exact xlColumnCharsCore_irrel (n / 26) n (n / 26) _
    (Nat.div_le_self n 26) le_rfl

/-- The accumulator of `xlColumnChars` is a pure suffix. -/
theorem xlColumnChars_append (n : Nat) :
    ∀ acc, xlColumnChars n acc = xlColumnChars n [] ++ acc := by
  induction n using Nat.strong_induction_on with
  | _ n ih =>
    intro acc
    match n with
    | 0 => simp [xlColumnChars, xlColumnCharsCore]
    | Nat.succ m =>
      rw [xlColumnChars_succ, xlColumnChars_succ]
      rw [ih (m / 26) (Nat.lt_succ_of_le (Nat.div_le_self m 26))
            (Char.ofNat (65 + m % 26) :: acc),
          ih (m / 26) (Nat.lt_succ_of_le (Nat.div_le_self m 26))
            [Char.ofNat (65 + m % 26)]]
      simp

/-- Each digit character `xlColumn` emits is an ASCII capital letter whose
uppercase code recovers the digit. -/
theorem xlColumnChar_facts (m : Nat) :
    (Char.ofNat (65 + m % 26)).isAlpha = true ∧
    ¬ (Char.ofNat (65 + m % 26)).isDigit = true ∧
    (Char.ofNat (65 + m % 26)).toUpper.toNat - 64 = m % 26 + 1 := by
  have h : m % 26 < 26 := Nat.mod_lt m (by norm_num)
  set k := m % 26 with hk
  interval_cases k <;> exact ⟨by decide, by decide, by decide⟩

/-- Decoding the letters of `xlColumn n` recovers `n`. -/
theorem xlLettersValue_roundtrip : ∀ n, xlLettersValue (xlColumnChars n []) = n := by
  intro n
  induction n using Nat.strong_induction_on with
  | _ n ih =>
    match n with
    | 0 => simp [xlColumnChars, xlColumnCharsCore, xlLettersValue]
    | Nat.succ m =>
      rw [xlColumnChars_succ, xlColumnChars_append]
      unfold xlLettersValue
      rw [List.foldl_append]
      have hrec := ih (m / 26) (Nat.lt_succ_of_le (Nat.div_le_self m 26))
      unfold xlLettersValue at hrec
      rw [hrec]
      simp only [List.foldl_cons, List.foldl_nil]
      rw [(xlColumnChar_facts m).2.2]
      omega

/-- All characters of `xlColumn n` are letters. -/
theorem xlColumnChars_alpha (n : Nat) :
    ∀ c ∈ xlColumnChars n [], c.isAlpha = true := by
  induction n using Nat.strong_induction_on with
  | _ n ih =>
    match n with
    | 0 => simp [xlColumnChars, xlColumnCharsCore]
    | Nat.succ m =>
      rw [xlColumnChars_succ, xlColumnChars_append]
      intro c hc
      rcases List.mem_append.mp hc with h | h
      · exact ih (m / 26) (Nat.lt_succ_of_le (Nat.div_le_self m 26)) c h
      · rcases List.mem_singleton.mp h with rfl
        exact (xlColumnChar_facts m).1

/-- `takeWhile`/`dropWhile` across a prefix on which the predicate holds. -/
theorem takeWhile_all_append {p : Char → Bool} (l1 l2 : List Char)
    (h : ∀ c ∈ l1, p c = true) :
    (l1 ++ l2).takeWhile p = l1 ++ l2.takeWhile p ∧
    (l1 ++ l2).dropWhile p = l2.dropWhile p := by
  induction l1 with
  | nil => simp
  | cons a l ih =>
    have ha : p a = true := h a (List.mem_cons_self a l)
    have ih' := ih (fun c hc => h c (List.mem_cons_of_mem a hc))
    simp [List.takeWhile_cons, List.dropWhile_cons, ha, ih'.1, ih'.2]

/-- C1.  For every column index `n` in `[1, 16384]`, the cell reference
built from the column's letters and row 1 parses back to row 1 and column
`n`: `xlCell2Ind(xlColumn(n) + "1") = { row: 1, column: n }`, i.e. the
letter-decoding of `xlCell2Ind` is the exact inverse of the zero-less
base-26 encoding `xlColumn`. -/
theorem xlColumn_parseCellRef_roundtrip (n : Nat) (h1 : 1 ≤ n)
    (h2 : n ≤ 16384) :
    xlCell2IndStr (xlColumn n ++ "1") = (1, n) := by
  have hdata : (xlColumn n ++ "1").data = xlColumnChars n [] ++ ['1'] := by
    simp [xlColumn, String.data_append]
  have halpha := xlColumnChars_alpha n
  have hne : xlColumnChars n [] ≠ [] := by
    match n, h1 with
    | Nat.succ m, _ =>
      rw [xlColumnChars_succ, xlColumnChars_append]
      simp
  have htake := takeWhile_all_append (p := fun c => c.isAlpha)
    (xlColumnChars n []) ['1'] halpha
  have h1' : (['1'].takeWhile (fun c => c.isAlpha)) = [] := by decide
  have h2' : (['1'].dropWhile (fun c => c.isAlpha)) = ['1'] := by decide
  unfold xlCell2IndStr
  simp only [hdata, htake.1, htake.2, h1', h2', List.append_nil]
  rw [if_pos ⟨hne, by simp, by decide⟩]
  rw [xlLettersValue_roundtrip]
  simp [parseDigits]

/-- C1 witness: the round trip at the concrete column 703 (`"AAA"`). -/
theorem xlColumn_parseCellRef_roundtrip_witness :
    xlCell2IndStr (xlColumn 703 ++ "1") = (1, 703) :=
  xlColumn_parseCellRef_roundtrip 703 (by norm_num) (by norm_num)


/-- C2 counterexample.  Saving a fresh writer to the out-of-tree path
`/etc/passwd` (working directory `/home/user`) does fail with the explicit
security error, but the archive entries have already been generated by the
inner `save()` call: the entry list is non-empty, contradicting the claim
that rejection happens before any archive content is produced. -/
theorem saveAs_outside_path_entries_not_empty :
    (saveAsNode (newWorkbook "output.xlsx") "/etc/passwd" "/home/user").result
        = .error "Security error: output path must be within working directory"
      ∧
    (saveAsNode (newWorkbook "output.xlsx") "/etc/passwd"
        "/home/user").zipEntries ≠ [] := by
  constructor
  · rfl
  · decide

/-- C2 (amended).  For every resolved path outside the working directory or
without the `.xlsx` extension, `saveAs` fails with an explicit security
error and never reaches the file-system write — but only after the archive
has been fully generated: the entry list equals the full `save()` output and
is never empty. -/
theorem saveAs_rejects_bad_paths (wb : Workbook) (resolvedPath baseDir : String)
    (h : pathWithinBase resolvedPath baseDir = false ∨
      hasXlsxExtension resolvedPath = false) :
    (∃ msg, (saveAsNode wb resolvedPath baseDir).result = .error msg) ∧
    (saveAsNode wb resolvedPath baseDir).zipEntries = saveEntryPaths wb ∧
    (saveAsNode wb resolvedPath baseDir).zipEntries ≠ [] := by
  have hentries : (saveAsNode wb resolvedPath baseDir).zipEntries
      = saveEntryPaths wb := by
    unfold saveAsNode
    split_ifs <;> rfl
  refine ⟨?_, hentries, ?_⟩
  · unfold saveAsNode
    rcases h with h | h
    · rw [if_pos (by simp [h])]
      exact ⟨_, rfl⟩
    · split_ifs with h1 h2
      · exact ⟨_, rfl⟩
      · exact ⟨_, rfl⟩
      · exact absurd h (by simp_all)
  · rw [hentries]
    simp [saveEntryPaths]

/-- C2 witness: the amended theorem applied to the fresh writer and the
non-`.xlsx` in-tree path `/home/user/evil.txt`. -/
theorem saveAs_rejects_bad_paths_witness :
    (∃ msg, (saveAsNode (newWorkbook "output.xlsx") "/home/user/evil.txt"
      "/home/user").result = .error msg) ∧
    (saveAsNode (newWorkbook "output.xlsx") "/home/user/evil.txt"
      "/home/user").zipEntries
        = saveEntryPaths (newWorkbook "output.xlsx") ∧
    (saveAsNode (newWorkbook "output.xlsx") "/home/user/evil.txt"
      "/home/user").zipEntries ≠ [] :=
  saveAs_rejects_bad_paths (newWorkbook "output.xlsx") "/home/user/evil.txt"
    "/home/user" (Or.inr (by decide))


/-- C3 (code bug).  Sheet names are not unique: `writeData` pushes a fresh
sheet without registering it in `sheetMap`, so a later `write` addressed to
the same name misses the map lookup in `_getOrCreateSheet` and appends a
second sheet with the same name, instead of reusing the existing one.  After
`writeData(...,'Sheet1')` followed by `write(0,0,2,null,'Sheet1')` the
writer holds two sheets both named `Sheet1`. -/
theorem writeData_then_write_duplicates_sheet :
    wbDupSheets.sheets.map (fun so => so.name) = ["Sheet1", "Sheet1"] ∧
    ¬ (wbDupSheets.sheets.map (fun so => so.name)).Nodup := by
  constructor
  · decide
  · decide


/-- C5.  Writing `+Infinity`, `-Infinity` or `NaN` into a cell never lets
the literal text `Infinity`/`NaN` reach the sheet-data XML: `_processCell`
stores `+Infinity` as the finite sentinel `9.99999999999999E+307` and
`-Infinity` as its negation, turns `NaN` into an empty cell, and stores no
non-finite number for any numeric input; concretely, the sheet holding all
three writes serialises with the sentinel values and without the substrings
`Infinity`/`NaN`, and an unformatted `NaN`-only sheet serialises to nothing
at all. -/
theorem processCell_nonfinite_never_emitted :
    (∀ (f : Option FmtRef) (st : SST),
      processCell (.num .inf) f st
        = ({ value := .num (.fin sentinelQ), ctype := .n, isFormula := false,
             format := f }, st) ∧
      processCell (.num .negInf) f st
        = ({ value := .num (.fin (-sentinelQ)), ctype := .n,
             isFormula := false, format := f }, st) ∧
      processCell (.num .nan) f st
        = ({ value := .str "", ctype := .n, isFormula := false,
             format := f }, st)) ∧
    (∀ (j : JSNum) (f : Option FmtRef) (st : SST),
      (processCell (.num j) f st).1.value = .str "" ∨
      ∃ q : ℚ, (processCell (.num j) f st).1.value = .num (.fin q)) ∧
    generateSheetDataXML (wbNonFinite.sheets.getD 0 { name := "x" }) []
      = "<row r=\"1\" spans=\"1:3\"><c r=\"A1\"><v>9.99999999999999e+307</v></c><c r=\"B1\"><v>-9.99999999999999e+307</v></c></row><row r=\"2\" spans=\"1:1\"><c r=\"A2\"><v>42</v></c></row>" ∧
    strContains
      (generateSheetDataXML (wbNonFinite.sheets.getD 0 { name := "x" }) [])
      "Infinity" = false ∧
    strContains
      (generateSheetDataXML (wbNonFinite.sheets.getD 0 { name := "x" }) [])
      "NaN" = false ∧
    generateSheetDataXML (wbNaNOnly.sheets.getD 0 { name := "x" }) [] = "" := by
  refine ⟨fun f st => ⟨rfl, rfl, rfl⟩, fun j f st => ?_, by decide, by decide,
    by decide, by decide⟩
  match j with
  | .inf => exact Or.inr ⟨sentinelQ, rfl⟩
  | .negInf => exact Or.inr ⟨-sentinelQ, rfl⟩
  | .nan => exact Or.inl rfl
  | .fin q => exact Or.inr ⟨q, rfl⟩


theorem jsMapGet_enumMapFrom_none (s : String) :
    ∀ (l : List String) (n : Nat),
      (jsMapGet (enumMapFrom n l) s = none ↔ s ∉ l) := by
  intro l
  induction l with
  | nil => intro n; simp [jsMapGet, enumMapFrom]
  | cons a rest ih =>
    intro n
    by_cases hx : a = s
    · subst hx
      simp [jsMapGet, enumMapFrom, List.find?]
    · rw [enumMapFrom]
      have step : jsMapGet ((a, n) :: enumMapFrom (n + 1) rest) s
          = jsMapGet (enumMapFrom (n + 1) rest) s := by
        simp [jsMapGet, List.find?, hx]
      rw [step, ih (n + 1)]
      simp [hx]
      exact fun _ he => hx he.symm

theorem jsMapHas_enumMapFrom (s : String) :
    ∀ (l : List String) (n : Nat),
      (jsMapHas (enumMapFrom n l) s = false ↔ s ∉ l) := by
  intro l
  induction l with
  | nil => intro n; simp [jsMapHas, enumMapFrom]
  | cons a rest ih =>
    intro n
    by_cases hx : a = s
    · subst hx
      simp [jsMapHas, enumMapFrom]
    · rw [enumMapFrom]
      have step : jsMapHas ((a, n) :: enumMapFrom (n + 1) rest) s
          = jsMapHas (enumMapFrom (n + 1) rest) s := by
        simp [jsMapHas, hx]
      rw [step, ih (n + 1)]
      simp [hx]
      exact fun _ he => hx he.symm

theorem enumMapFrom_append (x : String) :
    ∀ (l : List String) (n : Nat),
      enumMapFrom n (l ++ [x]) = enumMapFrom n l ++ [(x, n + l.length)] := by
  intro l
  induction l with
  | nil => intro n; simp [enumMapFrom]
  | cons a rest ih =>
    intro n
    rw [List.cons_append, enumMapFrom, enumMapFrom, ih (n + 1)]
    simp [Nat.add_comm, Nat.add_assoc, Nat.add_left_comm]



theorem processCell_sst (v : JSValue) (f : Option FmtRef) (st : SST)
    (hwf : SSTWF st) :
    (processCell v f st).2.sharedStrings = internStep st.sharedStrings v ∧
    SSTWF (processCell v f st).2 := by
  match v with
  | .null => exact ⟨rfl, hwf⟩
  | .undef => exact ⟨rfl, hwf⟩
  | .boolean b => exact ⟨rfl, hwf⟩
  | .num .inf => exact ⟨rfl, hwf⟩
  | .num .negInf => exact ⟨rfl, hwf⟩
  | .num .nan => exact ⟨rfl, hwf⟩
  | .num (.fin q) => exact ⟨rfl, hwf⟩
  | .str s =>
    by_cases hf : strStartsWith s "=" = true
    · have hi : internedString? (.str s) = none := by
        simp [internedString?, hf]
      constructor
      · simp [processCell, hf, internStep, hi]
      · simpa [processCell, hf] using hwf
    · have hf' : strStartsWith s "=" = false := by simpa using hf
      by_cases he : s = ""
      · subst he
        have hi : internedString? (.str "") = none := by
          simp [internedString?]
        constructor
        · simp [processCell, hf', internStep, hi]
        · simpa [processCell, hf'] using hwf
      · have hint : internedString? (.str s) = some s := by
          simp [internedString?, he, hf']
        have hred : processCell (.str s) f st =
            (match jsMapGet st.sharedStringsMap s with
             | some idx =>
               ({ value := .idx idx, ctype := .s, isFormula := false,
                  format := f }, st)
             | none =>
               ({ value := .idx st.sharedStrings.length, ctype := .s,
                  isFormula := false, format := f },
                { sharedStrings := st.sharedStrings ++ [s],
                  sharedStringsMap :=
                    jsMapSet st.sharedStringsMap s st.sharedStrings.length })) := by
          simp [processCell, hf', he]
        rw [hred]
        cases hmem : jsMapGet st.sharedStringsMap s with
        | some i =>
          have hin : s ∈ st.sharedStrings := by
            by_contra hnot
            rw [← jsMapGet_enumMapFrom_none s st.sharedStrings 0, ← hwf] at hnot
            simp [hmem] at hnot
          exact ⟨by simp [internStep, hint, insertNewString, hin], hwf⟩
        | none =>
          have hnot : s ∉ st.sharedStrings := by
            rw [← jsMapGet_enumMapFrom_none s st.sharedStrings 0, ← hwf]
            exact hmem
          have hhas : jsMapHas st.sharedStringsMap s = false := by
            rw [hwf]
            exact (jsMapHas_enumMapFrom s st.sharedStrings 0).mpr hnot
          constructor
          · simp [internStep, hint, insertNewString, hnot]
          · show jsMapSet st.sharedStringsMap s st.sharedStrings.length
                = enumMapFrom 0 (st.sharedStrings ++ [s])
            rw [enumMapFrom_append]
            unfold jsMapSet
            rw [if_neg (by simp only [jsMapHas] at hhas; simp [hhas])]
            rw [hwf]
            simp
  


theorem processValues_characterization (vals : List JSValue) :
    ∀ (st : SST), SSTWF st →
      (processValues vals st).sharedStrings
          = vals.foldl internStep st.sharedStrings ∧
      SSTWF (processValues vals st) := by
  induction vals with
  | nil => intro st hwf; exact ⟨rfl, hwf⟩
  | cons v rest ih =>
    intro st hwf
    have hstep := processCell_sst v none st hwf
    have hrec := ih (processCell v none st).2 hstep.2
    unfold processValues at hrec ⊢
    simp only [List.foldl_cons]
    rw [hrec.1, hstep.1]
    exact ⟨rfl, hrec.2⟩

-- foldl internStep = foldl insertNewString over the filterMap
theorem foldl_internStep (vals : List JSValue) :
    ∀ acc, vals.foldl internStep acc
      = (vals.filterMap internedString?).foldl insertNewString acc := by
  induction vals with
  | nil => intro acc; rfl
  | cons v rest ih =>
    intro acc
    cases hv : internedString? v with
    | some s =>
      simp [List.filterMap_cons, hv, internStep, ih]
    | none =>
      simp [List.filterMap_cons, hv, internStep, ih]

theorem insertNewString_subset (acc : List String) (s t : String)
    (h : t ∈ acc) : t ∈ insertNewString acc s := by
  unfold insertNewString
  split_ifs <;> simp [h]

theorem mem_insertNewString (acc : List String) (s t : String) :
    t ∈ insertNewString acc s ↔ t ∈ acc ∨ t = s := by
  unfold insertNewString
  split_ifs with hmem
  · constructor
    · exact fun h => Or.inl h
    · rintro (h | rfl)
      · exact h
      · exact hmem
  · simp

theorem insertNewString_nodup (acc : List String) (s : String)
    (h : acc.Nodup) : (insertNewString acc s).Nodup := by
  unfold insertNewString
  split_ifs with hmem
  · exact h
  · simpa [List.nodup_append] using ⟨h, hmem⟩

theorem foldl_insertNewString_nodup (l : List String) :
    ∀ acc, acc.Nodup → (l.foldl insertNewString acc).Nodup := by
  induction l with
  | nil => exact fun acc h => h
  | cons s rest ih =>
    intro acc h
    exact ih _ (insertNewString_nodup acc s h)

theorem mem_foldl_insertNewString (l : List String) :
    ∀ acc t, t ∈ l.foldl insertNewString acc ↔ t ∈ acc ∨ t ∈ l := by
  induction l with
  | nil => simp
  | cons s rest ih =>
    intro acc t
    rw [List.foldl_cons, ih, mem_insertNewString]
    simp only [List.mem_cons]
    tauto

theorem distinctInOrder_nodup (l : List String) : (distinctInOrder l).Nodup :=
  foldl_insertNewString_nodup l [] List.nodup_nil

theorem mem_distinctInOrder (l : List String) (t : String) :
    t ∈ distinctInOrder l ↔ t ∈ l := by
  unfold distinctInOrder
  rw [mem_foldl_insertNewString]
  simp

theorem distinctInOrder_length_eq_dedup (l : List String) :
    (distinctInOrder l).length = l.dedup.length := by
  have h1 : (distinctInOrder l).toFinset = l.dedup.toFinset := by
    ext t
    simp [List.mem_toFinset, mem_distinctInOrder, List.mem_dedup]
  calc (distinctInOrder l).length
      = (distinctInOrder l).toFinset.card :=
        (List.toFinset_card_of_nodup (distinctInOrder_nodup l)).symm
    _ = l.dedup.toFinset.card := by rw [h1]
    _ = l.dedup.length := List.toFinset_card_of_nodup (List.nodup_dedup l)



theorem mem_filterMap_interned (vals : List JSValue) (s : String)
    (h : s ∈ vals.filterMap internedString?) :
    s ≠ "" ∧ strStartsWith s "=" = false := by
  rcases List.mem_filterMap.mp h with ⟨v, _, hv⟩
  cases v with
  | str t =>
    simp only [internedString?] at hv
    split_ifs at hv with hc
    cases hv
    exact ⟨hc.1, hc.2⟩
  | null => simp [internedString?] at hv
  | undef => simp [internedString?] at hv
  | boolean b => simp [internedString?] at hv
  | num j => simp [internedString?] at hv

theorem sharedString_interning_main (vals : List JSValue) :
    (processValues vals { sharedStrings := [], sharedStringsMap := [] }).sharedStrings
      = distinctInOrder (vals.filterMap internedString?) := by
  have h := processValues_characterization vals
    { sharedStrings := [], sharedStringsMap := [] } rfl
  rw [h.1, foldl_internStep]
  rfl

/-- C4.  Shared-string interning is idempotent: after any sequence of cell
writes (the table state is the fold of `_processCell` over the written
values), the table is exactly the distinct non-empty, non-formula string
values written, in first-occurrence order, so its length is the number of
distinct such strings; every table entry is non-empty and non-formula;
re-interning a string already in the table returns the existing index and
leaves the state unchanged; and interning a new eligible string appends it
and returns the new index. -/
theorem sharedString_interning (vals : List JSValue) :
    (processValues vals { sharedStrings := [], sharedStringsMap := [] }).sharedStrings
        = distinctInOrder (vals.filterMap internedString?) ∧
    (processValues vals
        { sharedStrings := [], sharedStringsMap := [] }).sharedStrings.length
        = (vals.filterMap internedString?).dedup.length ∧
    (∀ s, s ∈ (processValues vals
        { sharedStrings := [], sharedStringsMap := [] }).sharedStrings →
      s ≠ "" ∧ strStartsWith s "=" = false) ∧
    (∀ s f i,
      jsMapGet (processValues vals
        { sharedStrings := [], sharedStringsMap := [] }).sharedStringsMap s
          = some i →
      processCell (.str s) f
          (processValues vals { sharedStrings := [], sharedStringsMap := [] })
        = ({ value := .idx i, ctype := .s, isFormula := false, format := f },
           processValues vals { sharedStrings := [], sharedStringsMap := [] })) ∧
    (∀ s f, s ≠ "" → strStartsWith s "=" = false →
      jsMapGet (processValues vals
        { sharedStrings := [], sharedStringsMap := [] }).sharedStringsMap s
          = none →
      processCell (.str s) f
          (processValues vals { sharedStrings := [], sharedStringsMap := [] })
        = ({ value := .idx (processValues vals
              { sharedStrings := [], sharedStringsMap := [] }).sharedStrings.length,
             ctype := .s, isFormula := false, format := f },
           { sharedStrings := (processValues vals
               { sharedStrings := [], sharedStringsMap := [] }).sharedStrings ++ [s],
             sharedStringsMap := (processValues vals
               { sharedStrings := [], sharedStringsMap := [] }).sharedStringsMap ++
                 [(s, (processValues vals
                   { sharedStrings := [],
                     sharedStringsMap := [] }).sharedStrings.length)] })) := by
  set st := processValues vals { sharedStrings := [], sharedStringsMap := [] }
    with hst
  have hwf : SSTWF st :=
    (processValues_characterization vals
      { sharedStrings := [], sharedStringsMap := [] } rfl).2
  have hchar : st.sharedStrings = distinctInOrder (vals.filterMap internedString?) :=
    sharedString_interning_main vals
  have heligible : ∀ s, s ∈ st.sharedStrings →
      s ≠ "" ∧ strStartsWith s "=" = false := by
    intro s hs
    rw [hchar, mem_distinctInOrder] at hs
    exact mem_filterMap_interned vals s hs
  refine ⟨hchar, by rw [hchar]; exact distinctInOrder_length_eq_dedup _,
    heligible, ?_, ?_⟩
  · intro s f i hget
    have hmem : s ∈ st.sharedStrings := by
      by_contra hnot
      rw [← jsMapGet_enumMapFrom_none s st.sharedStrings 0, ← hwf] at hnot
      simp [hget] at hnot
    have hel := heligible s hmem
    simp [processCell, hel.2, hel.1, hget]
  · intro s f hne hfs hget
    have hhas : jsMapHas st.sharedStringsMap s = false := by
      have hnot : s ∉ st.sharedStrings := by
        rw [← jsMapGet_enumMapFrom_none s st.sharedStrings 0, ← hwf]
        exact hget
      rw [hwf]
      exact (jsMapHas_enumMapFrom s st.sharedStrings 0).mpr hnot
    have hset : jsMapSet st.sharedStringsMap s st.sharedStrings.length
        = st.sharedStringsMap ++ [(s, st.sharedStrings.length)] := by
      unfold jsMapSet
      rw [if_neg (by simp only [jsMapHas] at hhas; simp [hhas])]
    simp [processCell, hfs, hne, hget, hset]

/-- C4 witness: after processing the demonstration sequence the table is
`["a"]`; re-interning `"a"` returns index 0 and leaves the state unchanged. -/
theorem sharedString_interning_witness :
    processCell (.str "a") none sstDemo
      = ({ value := .idx 0, ctype := .s, isFormula := false, format := none },
         sstDemo) ∧
    sstDemo.sharedStrings.length = 1 := by
  have h := sharedString_interning demoWrittenValues
  constructor
  · exact h.2.2.2.1 "a" none 0 (by decide)
  · have h2 := h.2.1
    rw [show sstDemo = processValues demoWrittenValues
      { sharedStrings := [], sharedStringsMap := [] } from rfl, h2]
    decide

end Xlsx

namespace Xlsx

theorem jsMapGet_keyIndexFrom_none (k : FormatKey) :
    ∀ (l : List FormatKey) (n : Nat),
      (jsMapGet (keyIndexFrom n l) k = none ↔ k ∉ l) := by
  intro l
  induction l with
  | nil => intro n; simp [jsMapGet, keyIndexFrom]
  | cons a rest ih =>
    intro n
    by_cases hx : a = k
    · subst hx
      simp [jsMapGet, keyIndexFrom, List.find?]
    · rw [keyIndexFrom]
      have step : jsMapGet ((a, n) :: keyIndexFrom (n + 1) rest) k
          = jsMapGet (keyIndexFrom (n + 1) rest) k := by
        simp [jsMapGet, List.find?, hx]
      rw [step, ih (n + 1)]
      simp [hx]
      exact fun _ he => hx he.symm

theorem jsMapGet_keyIndexFrom_some (k : FormatKey) :
    ∀ (l : List FormatKey) (n i : Nat),
      jsMapGet (keyIndexFrom n l) k = some i →
      n ≤ i ∧ i - n < l.length ∧ l.get? (i - n) = some k := by
  intro l
  induction l with
  | nil => intro n i h; simp [jsMapGet, keyIndexFrom] at h
  | cons a rest ih =>
    intro n i h
    by_cases hx : a = k
    · subst hx
      have : i = n := by
        simp [jsMapGet, keyIndexFrom, List.find?] at h
        omega
      subst this
      simp
    · rw [keyIndexFrom] at h
      have step : jsMapGet ((a, n) :: keyIndexFrom (n + 1) rest) k
          = jsMapGet (keyIndexFrom (n + 1) rest) k := by
        simp [jsMapGet, List.find?, hx]
      rw [step] at h
      obtain ⟨h1, h2, h3⟩ := ih (n + 1) i h
      refine ⟨by omega, by simp; omega, ?_⟩
      have : i - n = (i - (n + 1)) + 1 := by omega
      rw [this]
      simpa using h3

theorem keyIndexFrom_append (x : FormatKey) :
    ∀ (l : List FormatKey) (n : Nat),
      keyIndexFrom n (l ++ [x]) = keyIndexFrom n l ++ [(x, n + l.length)] := by
  intro l
  induction l with
  | nil => intro n; simp [keyIndexFrom]
  | cons a rest ih =>
    intro n
    rw [List.cons_append, keyIndexFrom, keyIndexFrom, ih (n + 1)]
    simp [Nat.add_comm, Nat.add_assoc, Nat.add_left_comm]

theorem jsMapHas_keyIndexFrom (k : FormatKey) :
    ∀ (l : List FormatKey) (n : Nat),
      (jsMapHas (keyIndexFrom n l) k = false ↔ k ∉ l) := by
  intro l
  induction l with
  | nil => intro n; simp [jsMapHas, keyIndexFrom]
  | cons a rest ih =>
    intro n
    by_cases hx : a = k
    · subst hx
      simp [jsMapHas, keyIndexFrom]
    · rw [keyIndexFrom]
      have step : jsMapHas ((a, n) :: keyIndexFrom (n + 1) rest) k
          = jsMapHas (keyIndexFrom (n + 1) rest) k := by
        simp [jsMapHas, hx]
      rw [step, ih (n + 1)]
      simp [hx]
      exact fun _ he => hx he.symm

end Xlsx

namespace Xlsx

theorem Format.getKey_override (f : Format) (x : Nat) (y : Option Nat) :
    Format.getKey { f with numFormatIndex := x, xfIndex := y } = f.getKey := rfl

-- addFormat when the key is already registered: state unchanged,
-- the stored format is returned
theorem addFormat_hit (wb : Workbook) (p : FormatProps) (i : Nat)
    (hget : jsMapGet wb.formatMap (mkFormat p).getKey = some i) :
    addFormat wb p = (wb.formats.getD i (mkFormat p), wb) := by
  unfold addFormat
  simp only [hget]

-- addFormat on a new key: the pushed format and the state update
theorem addFormat_miss (wb : Workbook) (p : FormatProps)
    (hget : jsMapGet wb.formatMap (mkFormat p).getKey = none) :
    (addFormat wb p).1.getKey = (mkFormat p).getKey ∧
    (addFormat wb p).1.xfIndex = some wb.formats.length ∧
    (addFormat wb p).2.formats = wb.formats ++ [(addFormat wb p).1] ∧
    (addFormat wb p).2.formatMap
      = jsMapSet wb.formatMap (mkFormat p).getKey wb.formats.length := by
  unfold addFormat
  simp only [hget]
  split_ifs <;>
    cases hlk : numFormatsLookup (mkFormat p).numFormat <;>
      simp [hlk, Format.getKey]

end Xlsx

namespace Xlsx

theorem jsMapGet_append_single {κ α : Type} [DecidableEq κ]
    (m : JSMap κ α) (k : κ) (v : α) (k' : κ) :
    jsMapGet (m ++ [(k, v)]) k'
      = ((jsMapGet m k').or (if k' = k then some v else none)) := by
  unfold jsMapGet
  rw [List.find?_append]
  by_cases hk : k = k'
  · subst hk
    cases hf : m.find? (fun p => p.1 = k) <;> simp [List.find?]
  · have hne : (k' = k) = False := by
      simp
      exact fun h => hk h.symm
    cases hf : m.find? (fun p => p.1 = k') <;>
      simp [List.find?, hk, hne]

theorem addFormat_spec (wb : Workbook) (p : FormatProps)
    (hwf : FormatsWF wb) :
    FormatsWF (addFormat wb p).2 ∧
    (addFormat wb p).1.getKey = (mkFormat p).getKey ∧
    ∃ i, (addFormat wb p).1.xfIndex = some i ∧
      (addFormat wb p).2.formats.get? i = some (addFormat wb p).1 ∧
      jsMapGet (addFormat wb p).2.formatMap (mkFormat p).getKey = some i := by
  obtain ⟨hmap, hnodup, hxf⟩ := hwf
  cases hget : jsMapGet wb.formatMap (mkFormat p).getKey with
  | some i =>
    rw [addFormat_hit wb p i hget]
    have hsome := jsMapGet_keyIndexFrom_some (mkFormat p).getKey
      (wb.formats.map Format.getKey) 0 i (by rw [← hmap]; exact hget)
    simp only [Nat.sub_zero] at hsome
    have hlt : i < wb.formats.length := by
      have := hsome.2.1
      simpa using this
    have hkey : (wb.formats.map Format.getKey).get? i
        = some (mkFormat p).getKey := hsome.2.2
    rw [List.get?_map] at hkey
    cases hf : wb.formats.get? i with
    | none => rw [hf] at hkey; cases hkey
    | some f =>
      rw [hf] at hkey
      have hfkey : f.getKey = (mkFormat p).getKey := by
        simpa using hkey
      have hgetD : wb.formats.getD i (mkFormat p) = f := by
        unfold List.getD
        rw [hf]
        rfl
      refine ⟨⟨hmap, hnodup, hxf⟩, ?_, i, ?_, ?_, ?_⟩
      · rw [hgetD]; exact hfkey
      · rw [hgetD]
        have hmem : (i, f) ∈ wb.formats.enum :=
          List.mk_mem_enum_iff_getElem?.mpr
            (by rw [← List.get?_eq_getElem?]; exact hf)
        exact hxf (i, f) hmem
      · rw [hgetD]; exact hf
      · exact hget
  | none =>
    obtain ⟨hk2, hxf2, hformats2, hmap2⟩ := addFormat_miss wb p hget
    have hnotmem : (mkFormat p).getKey ∉ wb.formats.map Format.getKey := by
      rw [← jsMapGet_keyIndexFrom_none (mkFormat p).getKey
        (wb.formats.map Format.getKey) 0, ← hmap]
      exact hget
    have hhasf : jsMapHas wb.formatMap (mkFormat p).getKey = false := by
      rw [hmap]
      exact (jsMapHas_keyIndexFrom (mkFormat p).getKey
        (wb.formats.map Format.getKey) 0).mpr hnotmem
    have hset : jsMapSet wb.formatMap (mkFormat p).getKey wb.formats.length
        = wb.formatMap ++ [((mkFormat p).getKey, wb.formats.length)] := by
      unfold jsMapSet
      rw [if_neg (by simp only [jsMapHas] at hhasf; simp [hhasf])]
    have hmap2' : (addFormat wb p).2.formatMap
        = keyIndexFrom 0 (wb.formats.map Format.getKey
            ++ [(mkFormat p).getKey]) := by
      rw [hmap2, hset, hmap, keyIndexFrom_append]
      simp
    have hkeys2 : (addFormat wb p).2.formats.map Format.getKey
        = wb.formats.map Format.getKey ++ [(mkFormat p).getKey] := by
      rw [hformats2]
      simp [hk2]
    refine ⟨⟨by rw [hmap2', hkeys2], ?_, ?_⟩, hk2, wb.formats.length, hxf2,
      ?_, ?_⟩
    · rw [hkeys2]
      refine List.Nodup.append hnodup (List.nodup_singleton _) ?_
      intro a ha hb
      rw [List.mem_singleton] at hb
      subst hb
      exact hnotmem ha
    · intro q hq
      obtain ⟨qi, qf⟩ := q
      rw [hformats2] at hq
      rw [List.mk_mem_enum_iff_getElem?] at hq
      by_cases hq1 : qi < wb.formats.length
      · rw [List.getElem?_append_left hq1] at hq
        exact hxf (qi, qf) (List.mk_mem_enum_iff_getElem?.mpr hq)
      · have hlen : qi = wb.formats.length := by
          by_contra hne
          have hge : (wb.formats ++ [(addFormat wb p).1]).length ≤ qi := by
            simp
            omega
          rw [List.getElem?_eq_none hge] at hq
          cases hq
        subst hlen
        rw [List.getElem?_concat_length] at hq
        cases hq
        exact hxf2
    · rw [hformats2, List.get?_eq_getElem?, List.getElem?_concat_length]
    · rw [hmap2, hset, jsMapGet_append_single]
      simp [hget]

end Xlsx

namespace Xlsx

theorem jsMapGet_map_set_ne {κ α : Type} [DecidableEq κ] (key k : κ)
    (v : α) (h : k ≠ key) :
    ∀ (m : JSMap κ α),
      jsMapGet (m.map (fun p => if p.1 = key then (key, v) else p)) k
        = jsMapGet m k := by
  intro m
  induction m with
  | nil => rfl
  | cons a rest ih =>
    by_cases ha : a.1 = key
    · rw [List.map_cons, if_pos ha]
      unfold jsMapGet at ih ⊢
      rw [List.find?_cons_of_neg _ (by simp; exact fun hkk => h hkk.symm),
        List.find?_cons_of_neg _ (by
          simp [ha]
          exact fun hkk => h hkk.symm)]
      exact ih
    · rw [List.map_cons, if_neg ha]
      by_cases hak : a.1 = k
      · unfold jsMapGet
        rw [List.find?_cons_of_pos _ (by simp [hak]),
          List.find?_cons_of_pos _ (by simp [hak])]
      · unfold jsMapGet at ih ⊢
        rw [List.find?_cons_of_neg _ (by simp [hak]),
          List.find?_cons_of_neg _ (by simp [hak])]
        exact ih

theorem jsMapGet_set_ne {κ α : Type} [DecidableEq κ] (m : JSMap κ α)
    (key k : κ) (v : α) (h : k ≠ key) :
    jsMapGet (jsMapSet m key v) k = jsMapGet m k := by
  unfold jsMapSet
  split_ifs with hh
  · exact jsMapGet_map_set_ne key k v h m
  · rw [jsMapGet_append_single]
    simp [h]

theorem addFormat_get_mono (wb : Workbook) (p : FormatProps) (k : FormatKey)
    (i : Nat) (h : jsMapGet wb.formatMap k = some i) :
    jsMapGet (addFormat wb p).2.formatMap k = some i := by
  cases hget : jsMapGet wb.formatMap (mkFormat p).getKey with
  | some j => rw [addFormat_hit wb p j hget]; exact h
  | none =>
    have hk : k ≠ (mkFormat p).getKey := by
      intro he
      rw [he, hget] at h
      cases h
    rw [(addFormat_miss wb p hget).2.2.2, jsMapGet_set_ne _ _ _ _ hk]
    exact h

-- a WF workbook maps registered keys to positions holding them
theorem wf_get_key (wb : Workbook) (hwf : FormatsWF wb) (k : FormatKey)
    (i : Nat) (h : jsMapGet wb.formatMap k = some i) :
    (wb.formats.map Format.getKey).get? i = some k := by
  have hsome := jsMapGet_keyIndexFrom_some k
    (wb.formats.map Format.getKey) 0 i (by rw [← hwf.1]; exact h)
  simpa using hsome.2.2

/-- C6: on a well-formed registry, format registration is governed by
key-equality of the 28-field canonical key, not full value-equality:
specs whose keys agree resolve to the same stored `Format` object, and the
returned `xfIndex` handles agree exactly when the keys agree. Fields
outside the key (the diagonal-border family, the raw `border`/`borderColor`
shorthands and the numeric format slot) do not separate handles, so a
single differing field need not yield a different handle. -/
theorem addFormat_value_equality (wb : Workbook) (p q : FormatProps)
    (hwf : FormatsWF wb) :
    ((mkFormat p).getKey = (mkFormat q).getKey →
      (addFormat wb p).1 = (addFormat (addFormat wb p).2 q).1) ∧
    ((addFormat wb p).1.xfIndex = (addFormat (addFormat wb p).2 q).1.xfIndex
      ↔ (mkFormat p).getKey = (mkFormat q).getKey) := by
  obtain ⟨hwf1, hk1, i1, hxf1, hstored1, hget1⟩ := addFormat_spec wb p hwf
  obtain ⟨hwf2, hk2, i2, hxf2, hstored2, hget2⟩ :=
    addFormat_spec (addFormat wb p).2 q hwf1
  by_cases hkey : (mkFormat p).getKey = (mkFormat q).getKey
  · have hget1' : jsMapGet (addFormat wb p).2.formatMap (mkFormat q).getKey
        = some i1 := by rw [← hkey]; exact hget1
    have hr2 := addFormat_hit (addFormat wb p).2 q i1 hget1'
    have heq : (addFormat (addFormat wb p).2 q).1 = (addFormat wb p).1 := by
      rw [hr2]
      show (addFormat wb p).2.formats.getD i1 (mkFormat q) = (addFormat wb p).1
      unfold List.getD
      rw [hstored1]
      rfl
    exact ⟨fun _ => heq.symm, by rw [heq]; exact iff_of_true rfl hkey⟩
  · have hget1w2 : jsMapGet (addFormat (addFormat wb p).2 q).2.formatMap
        (mkFormat p).getKey = some i1 :=
      addFormat_get_mono (addFormat wb p).2 q (mkFormat p).getKey i1 hget1
    have hkeysp := wf_get_key _ hwf2 _ _ hget1w2
    have hkeysq := wf_get_key _ hwf2 _ _ hget2
    have hne : i1 ≠ i2 := by
      intro heq
      rw [heq, hkeysq] at hkeysp
      exact hkey (Option.some.inj hkeysp).symm
    refine ⟨fun hk => absurd hk hkey, iff_of_false ?_ hkey⟩
    rw [hxf1, hxf2]
    intro hsome
    cases hsome
    exact hne rfl

end Xlsx

namespace Xlsx

theorem customSeqOf_append (nfs : List String) (x : String) :
    customSeqOf (nfs ++ [x])
      = if isCustomNF x then insertNewString (customSeqOf nfs) x
        else customSeqOf nfs := by
  unfold customSeqOf distinctInOrder
  rw [List.filter_append, List.foldl_append]
  by_cases hx : isCustomNF x
  · simp [hx, insertNewString]
  · simp [hx]

theorem mem_customSeqOf (nfs : List String) (x : String) :
    x ∈ customSeqOf nfs ↔ x ∈ nfs ∧ isCustomNF x = true := by
  unfold customSeqOf
  rw [mem_distinctInOrder, List.mem_filter]

end Xlsx

namespace Xlsx

theorem addFormat_miss_customs (wb : Workbook) (p : FormatProps)
    (hget : jsMapGet wb.formatMap (mkFormat p).getKey = none) :
    (addFormat wb p).1.numFormat = (mkFormat p).numFormat ∧
    (((¬ ((mkFormat p).numFormat ≠ "" ∧ (mkFormat p).numFormat ≠ "General")) ∧
      (addFormat wb p).2.customNumFormats = wb.customNumFormats ∧
      (addFormat wb p).2.nextNumFormatId = wb.nextNumFormatId) ∨
     (((mkFormat p).numFormat ≠ "" ∧ (mkFormat p).numFormat ≠ "General") ∧
      (∃ bid, numFormatsLookup (mkFormat p).numFormat = some bid ∧
        (addFormat wb p).1.numFormatIndex = bid) ∧
      (addFormat wb p).2.customNumFormats = wb.customNumFormats ∧
      (addFormat wb p).2.nextNumFormatId = wb.nextNumFormatId) ∨
     (((mkFormat p).numFormat ≠ "" ∧ (mkFormat p).numFormat ≠ "General") ∧
      numFormatsLookup (mkFormat p).numFormat = none ∧
      jsMapHas wb.customNumFormats (mkFormat p).numFormat = false ∧
      (addFormat wb p).1.numFormatIndex = wb.nextNumFormatId ∧
      (addFormat wb p).2.customNumFormats
        = jsMapSet wb.customNumFormats (mkFormat p).numFormat
            wb.nextNumFormatId ∧
      (addFormat wb p).2.nextNumFormatId = wb.nextNumFormatId + 1) ∨
     (((mkFormat p).numFormat ≠ "" ∧ (mkFormat p).numFormat ≠ "General") ∧
      numFormatsLookup (mkFormat p).numFormat = none ∧
      jsMapHas wb.customNumFormats (mkFormat p).numFormat = true ∧
      (addFormat wb p).1.numFormatIndex
        = (jsMapGet wb.customNumFormats (mkFormat p).numFormat).getD 0 ∧
      (addFormat wb p).2.customNumFormats = wb.customNumFormats ∧
      (addFormat wb p).2.nextNumFormatId = wb.nextNumFormatId)) := by
  unfold addFormat
  simp only [hget]
  split_ifs with h1 h2
  · cases hlk : numFormatsLookup (mkFormat p).numFormat with
    | some bid =>
      refine ⟨by simp [hlk], Or.inr (Or.inl ⟨h1, ⟨bid, rfl, by simp [hlk]⟩,
        by simp [hlk], by simp [hlk]⟩)⟩
    | none =>
      refine ⟨by simp [hlk], Or.inr (Or.inr (Or.inl ⟨h1, rfl, h2,
        by simp [hlk], by simp [hlk], by simp [hlk]⟩))⟩
  · cases hlk : numFormatsLookup (mkFormat p).numFormat with
    | some bid =>
      refine ⟨by simp [hlk], Or.inr (Or.inl ⟨h1, ⟨bid, rfl, by simp [hlk]⟩,
        by simp [hlk], by simp [hlk]⟩)⟩
    | none =>
      have h2x : jsMapHas wb.customNumFormats (mkFormat p).numFormat
          = true := by simpa using h2
      refine ⟨by simp [hlk], Or.inr (Or.inr (Or.inr ⟨h1, rfl, h2x,
        by simp [hlk, h2x], by simp [hlk, h2x], by simp [hlk, h2x]⟩))⟩
  · exact ⟨rfl, Or.inl ⟨h1, rfl, rfl⟩⟩

end Xlsx

namespace Xlsx

theorem jsMapSet_not_has {κ α : Type} [DecidableEq κ] (m : JSMap κ α)
    (k : κ) (v : α) (h : jsMapHas m k = false) :
    jsMapSet m k v = m ++ [(k, v)] := by
  unfold jsMapSet
  rw [if_neg (by simp only [jsMapHas] at h; simp [h])]

theorem isCustomNF_false_of_trivial (s : String)
    (h : ¬ (s ≠ "" ∧ s ≠ "General")) : isCustomNF s = false := by
  unfold isCustomNF
  by_cases h1 : s = ""
  · simp [h1]
  · by_cases h2 : s = "General"
    · simp [h2, numFormatsLookup, NUM_FORMATS]
    · exact absurd ⟨h1, h2⟩ h

theorem isCustomNF_false_of_builtin (s : String) (bid : Nat)
    (h : numFormatsLookup s = some bid) : isCustomNF s = false := by
  unfold isCustomNF
  simp [h]

theorem isCustomNF_true_of (s : String) (h1 : s ≠ "" ∧ s ≠ "General")
    (h2 : numFormatsLookup s = none) : isCustomNF s = true := by
  unfold isCustomNF
  simp [h1.1, h1.2, h2]

theorem mem_concat_self {α : Type} (a : α) (l : List α) : a ∈ l ++ [a] :=
  List.mem_append_right _ (List.mem_singleton.mpr rfl)

theorem customsInv_step (wb : Workbook) (p : FormatProps) (nfs : List String)
    (hwf : FormatsWF wb) (hinv : CustomsInv wb nfs) :
    CustomsInv (addFormat wb p).2 (nfs ++ [(mkFormat p).numFormat]) := by
  obtain ⟨hc1, hc2, hc3, hc4, hc5⟩ := hinv
  cases hget : jsMapGet wb.formatMap (mkFormat p).getKey with
  | some i =>
    -- hit: the state is unchanged and a stored format already carries nf
    have hkeys := wf_get_key wb hwf _ _ hget
    rw [List.get?_map] at hkeys
    cases hf : wb.formats.get? i with
    | none => rw [hf] at hkeys; cases hkeys
    | some f =>
      rw [hf] at hkeys
      have hfkey : f.getKey = (mkFormat p).getKey := by simpa using hkeys
      have hfnf : f.numFormat = (mkFormat p).numFormat :=
        congrArg FormatKey.nf hfkey
      have hfmem : f ∈ wb.formats := List.get?_mem hf
      have hseq : customSeqOf (nfs ++ [(mkFormat p).numFormat])
          = customSeqOf nfs := by
        rw [customSeqOf_append]
        by_cases hcu : isCustomNF (mkFormat p).numFormat
        · rw [if_pos hcu]
          have hnfmem : (mkFormat p).numFormat ∈ nfs := by
            rcases hc3 f hfmem with hg | hm
            · exfalso
              rw [hfnf] at hg
              unfold isCustomNF at hcu
              simp [hg] at hcu
            · rw [← hfnf]; exact hm
          have : (mkFormat p).numFormat ∈ customSeqOf nfs :=
            (mem_customSeqOf nfs _).mpr ⟨hnfmem, hcu⟩
          unfold insertNewString
          rw [if_pos this]
        · rw [if_neg hcu]
      rw [addFormat_hit wb p i hget]
      refine ⟨by rw [hseq]; exact hc1, by rw [hseq]; exact hc2, ?_, hc4, ?_⟩
      · intro g hg
        rcases hc3 g hg with h | h
        · exact Or.inl h
        · exact Or.inr (List.mem_append_left _ h)
      · intro g hg hcu
        exact hc5 g hg hcu
  | none =>
    obtain ⟨hnf2, hdisj⟩ := addFormat_miss_customs wb p hget
    have hformats2 := (addFormat_miss wb p hget).2.2.1
    have hold : ∀ g ∈ (addFormat wb p).2.formats,
        g = (addFormat wb p).1 ∨ g ∈ wb.formats := by
      intro g hg
      rw [hformats2] at hg
      rcases List.mem_append.mp hg with h | h
      · exact Or.inr h
      · exact Or.inl (List.mem_singleton.mp h)
    rcases hdisj with ⟨htriv, hcust, hnext⟩ |
        ⟨hne, ⟨bid, hbid, hidx⟩, hcust, hnext⟩ |
        ⟨hne, hlk, hhas, hidx, hcust, hnext⟩ |
        ⟨hne, hlk, hhas, hidx, hcust, hnext⟩
    · -- nf falsy or 'General': number-format handling skipped
      have hcu : isCustomNF (mkFormat p).numFormat = false :=
        isCustomNF_false_of_trivial _ htriv
      have hseq : customSeqOf (nfs ++ [(mkFormat p).numFormat])
          = customSeqOf nfs := by
        rw [customSeqOf_append, if_neg (by simp [hcu])]
      refine ⟨by rw [hseq, hcust]; exact hc1, by rw [hseq, hnext]; exact hc2,
        ?_, ?_, ?_⟩
      · intro g hg
        rcases hold g hg with rfl | h
        · exact Or.inr (by rw [hnf2]; exact mem_concat_self _ _)
        · rcases hc3 g h with h' | h'
          · exact Or.inl h'
          · exact Or.inr (List.mem_append_left _ h')
      · intro g hg hgen bid hbid
        rcases hold g hg with rfl | h
        · -- nf is "" or "General"; "General" contradicts hgen, "" has no
          -- builtin id
          rw [hnf2] at hgen hbid
          by_cases hemp : (mkFormat p).numFormat = ""
          · rw [hemp] at hbid
            simp [numFormatsLookup, NUM_FORMATS] at hbid
          · exact absurd ⟨hemp, fun hgg => hgen hgg⟩ htriv
        · exact hc4 g h hgen bid hbid
      · intro g hg hcu'
        rcases hold g hg with rfl | h
        · rw [hnf2] at hcu'
          rw [hcu] at hcu'
          cases hcu'
        · rw [hcust]
          exact hc5 g h hcu'
    · -- builtin number format
      have hcu : isCustomNF (mkFormat p).numFormat = false :=
        isCustomNF_false_of_builtin _ bid hbid
      have hseq : customSeqOf (nfs ++ [(mkFormat p).numFormat])
          = customSeqOf nfs := by
        rw [customSeqOf_append, if_neg (by simp [hcu])]
      refine ⟨by rw [hseq, hcust]; exact hc1, by rw [hseq, hnext]; exact hc2,
        ?_, ?_, ?_⟩
      · intro g hg
        rcases hold g hg with rfl | h
        · exact Or.inr (by rw [hnf2]; exact mem_concat_self _ _)
        · rcases hc3 g h with h' | h'
          · exact Or.inl h'
          · exact Or.inr (List.mem_append_left _ h')
      · intro g hg hgen bid' hbid'
        rcases hold g hg with rfl | h
        · rw [hnf2] at hbid'
          rw [hbid] at hbid'
          rw [hidx]
          exact Option.some.inj hbid'
        · exact hc4 g h hgen bid' hbid'
      · intro g hg hcu'
        rcases hold g hg with rfl | h
        · rw [hnf2, hcu] at hcu'
          cases hcu'
        · rw [hcust]
          exact hc5 g h hcu'
    · -- fresh custom number format: assign the next free id
      have hcu : isCustomNF (mkFormat p).numFormat = true :=
        isCustomNF_true_of _ hne hlk
      have hnotseq : (mkFormat p).numFormat ∉ customSeqOf nfs := by
        have := (jsMapHas_enumMapFrom (mkFormat p).numFormat
          (customSeqOf nfs) 164).mp (by rw [← hc1]; exact hhas)
        exact this
      have hseq : customSeqOf (nfs ++ [(mkFormat p).numFormat])
          = customSeqOf nfs ++ [(mkFormat p).numFormat] := by
        rw [customSeqOf_append, if_pos hcu]
        unfold insertNewString
        rw [if_neg hnotseq]
      have hcust2 : (addFormat wb p).2.customNumFormats
          = enumMapFrom 164 (customSeqOf (nfs ++ [(mkFormat p).numFormat])) := by
        rw [hcust, jsMapSet_not_has _ _ _ hhas, hseq, hc1,
          enumMapFrom_append, hc2]
      refine ⟨hcust2, ?_, ?_, ?_, ?_⟩
      · rw [hnext, hc2, hseq]
        simp
        omega
      · intro g hg
        rcases hold g hg with rfl | h
        · exact Or.inr (by rw [hnf2]; exact mem_concat_self _ _)
        · rcases hc3 g h with h' | h'
          · exact Or.inl h'
          · exact Or.inr (List.mem_append_left _ h')
      · intro g hg hgen bid' hbid'
        rcases hold g hg with rfl | h
        · rw [hnf2] at hbid'
          rw [hlk] at hbid'
          cases hbid'
        · exact hc4 g h hgen bid' hbid'
      · intro g hg hcu'
        rcases hold g hg with rfl | h
        · rw [hcust2, hseq, enumMapFrom_append, jsMapGet_append_single]
          have : jsMapGet (enumMapFrom 164 (customSeqOf nfs))
              (addFormat wb p).1.numFormat = none := by
            rw [jsMapGet_enumMapFrom_none]
            rw [hnf2]
            exact hnotseq
          rw [this, hnf2, hidx, hc2]
          simp
        · rw [hcust, jsMapSet_not_has _ _ _ hhas, jsMapGet_append_single]
          rw [hc1] at hc5 ⊢
          rw [hc5 g h hcu']
          rfl
    · -- custom number format already assigned: reuse its id
      have hcu : isCustomNF (mkFormat p).numFormat = true :=
        isCustomNF_true_of _ hne hlk
      have hmemseq : (mkFormat p).numFormat ∈ customSeqOf nfs := by
        by_contra hnot
        have := (jsMapHas_enumMapFrom (mkFormat p).numFormat
          (customSeqOf nfs) 164).mpr hnot
        rw [← hc1] at this
        rw [this] at hhas
        cases hhas
      have hseq : customSeqOf (nfs ++ [(mkFormat p).numFormat])
          = customSeqOf nfs := by
        rw [customSeqOf_append, if_pos hcu]
        unfold insertNewString
        rw [if_pos hmemseq]
      refine ⟨by rw [hseq, hcust]; exact hc1, by rw [hseq, hnext]; exact hc2,
        ?_, ?_, ?_⟩
      · intro g hg
        rcases hold g hg with rfl | h
        · exact Or.inr (by rw [hnf2]; exact mem_concat_self _ _)
        · rcases hc3 g h with h' | h'
          · exact Or.inl h'
          · exact Or.inr (List.mem_append_left _ h')
      · intro g hg hgen bid' hbid'
        rcases hold g hg with rfl | h
        · rw [hnf2] at hbid'
          rw [hlk] at hbid'
          cases hbid'
        · exact hc4 g h hgen bid' hbid'
      · intro g hg hcu'
        rcases hold g hg with rfl | h
        · rw [hcust]
          cases hcg : jsMapGet wb.customNumFormats (mkFormat p).numFormat with
          | none =>
            exfalso
            rw [hc1, jsMapGet_enumMapFrom_none] at hcg
            exact hcg hmemseq
          | some cid =>
            rw [hnf2, hcg, hidx, hcg]
            rfl
        · rw [hcust]
          exact hc5 g h hcu'

end Xlsx

namespace Xlsx

theorem formatsWF_newWorkbook (fname : String) :
    FormatsWF (newWorkbook fname) := by
  have h : FormatsWF (newWorkbook "") := by decide
  exact h

theorem customsInv_newWorkbook (fname : String) :
    CustomsInv (newWorkbook fname) [] := by
  have h : CustomsInv (newWorkbook "") [] := by decide
  exact h

theorem addFormats_inv (ps : List FormatProps) :
    ∀ (wb : Workbook) (nfs : List String),
      FormatsWF wb → CustomsInv wb nfs →
      FormatsWF (addFormats wb ps) ∧
      CustomsInv (addFormats wb ps)
        (nfs ++ ps.map (fun p => (mkFormat p).numFormat)) := by
  induction ps with
  | nil =>
    intro wb nfs hwf hinv
    exact ⟨hwf, by simpa [addFormats] using hinv⟩
  | cons p rest ih =>
    intro wb nfs hwf hinv
    have hwf2 := (addFormat_spec wb p hwf).1
    have hinv2 := customsInv_step wb p nfs hwf hinv
    have h := ih (addFormat wb p).2 (nfs ++ [(mkFormat p).numFormat]) hwf2 hinv2
    constructor
    · exact h.1
    · have := h.2
      simpa [addFormats, List.append_assoc] using this

/-- C7: starting from a fresh workbook, after registering any sequence of
format specs, the custom (non-builtin, non-General, non-empty)
number-format strings occupy the customNumFormats map enumerated from id
164 in first-occurrence order with duplicates collapsed (so the k-th
distinct custom string holds id 163 + k and equal strings share one id),
the next free id is 164 plus the number of distinct custom strings, every
stored format whose number format is builtin carries that builtin id, and
every stored format with a custom number format carries exactly the id the
map assigns to its string. -/
theorem customNumFormat_ids (fname : String) (ps : List FormatProps) :
    (addFormats (newWorkbook fname) ps).customNumFormats
      = enumMapFrom 164
          (customSeqOf (ps.map (fun p => (mkFormat p).numFormat))) ∧
    (addFormats (newWorkbook fname) ps).nextNumFormatId
      = 164 + (customSeqOf (ps.map (fun p => (mkFormat p).numFormat))).length ∧
    (∀ f ∈ (addFormats (newWorkbook fname) ps).formats,
      f.numFormat ≠ "General" →
      ∀ bid, numFormatsLookup f.numFormat = some bid →
        f.numFormatIndex = bid) ∧
    (∀ f ∈ (addFormats (newWorkbook fname) ps).formats,
      isCustomNF f.numFormat = true →
      jsMapGet (addFormats (newWorkbook fname) ps).customNumFormats
        f.numFormat = some f.numFormatIndex) := by
  have h := addFormats_inv ps (newWorkbook fname) []
    (formatsWF_newWorkbook fname) (customsInv_newWorkbook fname)
  rw [List.nil_append] at h
  obtain ⟨_, hc1, hc2, _, hc4, hc5⟩ := h
  exact ⟨hc1, hc2, hc4, hc5⟩

end Xlsx

namespace Xlsx

/-- Two specs differing only in `diagonal_type` nevertheless obtain the
same handle and the same stored format: `getKey` omits that field. -/
theorem addFormat_differing_field_same_handle :
    (mkFormat { diagonal_type := some 1 }).diagonalType
      ≠ (mkFormat ({} : FormatProps)).diagonalType ∧
    (addFormat (addFormat (newWorkbook "output.xlsx") {}).2
        { diagonal_type := some 1 }).1.xfIndex
      = (addFormat (newWorkbook "output.xlsx") {}).1.xfIndex ∧
    (addFormat (addFormat (newWorkbook "output.xlsx") {}).2
        { diagonal_type := some 1 }).1
      = (addFormat (newWorkbook "output.xlsx") {}).1 := by
  decide

theorem addFormat_value_equality_witness :
    FormatsWF (newWorkbook "output.xlsx") ∧
    (((mkFormat { bold := some true }).getKey
        = (mkFormat { italic := some true }).getKey →
      (addFormat (newWorkbook "output.xlsx") { bold := some true }).1
        = (addFormat (addFormat (newWorkbook "output.xlsx")
            { bold := some true }).2 { italic := some true }).1) ∧
    ((addFormat (newWorkbook "output.xlsx") { bold := some true }).1.xfIndex
        = (addFormat (addFormat (newWorkbook "output.xlsx")
            { bold := some true }).2 { italic := some true }).1.xfIndex
      ↔ (mkFormat { bold := some true }).getKey
          = (mkFormat { italic := some true }).getKey)) :=
  ⟨by decide, addFormat_value_equality (newWorkbook "output.xlsx")
    { bold := some true } { italic := some true } (by decide)⟩

end Xlsx

namespace Xlsx

set_option maxHeartbeats 4000000 in
/-- C8: for the two-series scatter chart over a 5-row data block, the chart
XML carries exactly the two axis ids `xAxis.id` and `yAxis.id` (each listed
by the plot-type block and by its own axis block, so the `c:axId` values
dedup to exactly 2), the axes cross-reference each other via `c:crossAx`,
and with a recorded multi-row data origin the series X and Y values are
sheet-qualified `c:numRef` ranges (X from the block's first column, each
series Y from the following columns, rows 2 through 5) with no `c:numLit`
anywhere, while without a recorded origin inline `c:numLit` literals appear
and no `c:numRef` does. -/
theorem scatter_axis_ids_and_ranges :
    axIdValuesIn scatterDemoXMLRef = ["111", "222", "111", "222"] ∧
    (axIdValuesIn scatterDemoXMLRef).dedup.length = 2 ∧
    crossAxValuesIn scatterDemoXMLRef = ["222", "111"] ∧
    strContains scatterDemoXMLRef
      "<c:xVal><c:numRef><c:f>Sheet1!$A$2:$A$5</c:f></c:numRef></c:xVal>"
      = true ∧
    strContains scatterDemoXMLRef
      "<c:yVal><c:numRef><c:f>Sheet1!$B$2:$B$5</c:f></c:numRef></c:yVal>"
      = true ∧
    strContains scatterDemoXMLRef
      "<c:yVal><c:numRef><c:f>Sheet1!$C$2:$C$5</c:f></c:numRef></c:yVal>"
      = true ∧
    strContains scatterDemoXMLRef "numLit" = false ∧
    strContains scatterDemoXMLLit "<c:numLit>" = true ∧
    strContains scatterDemoXMLLit "numRef" = false := by
  with_unfolding_all decide

end Xlsx

namespace Xlsx

theorem isPrefixOf_append_of (p a b : List Char)
    (h : p.isPrefixOf a = true) : p.isPrefixOf (a ++ b) = true := by
  simp at h ⊢
  exact h.trans (a.prefix_append b)

theorem strStartsWith_assoc (a b p : String)
    (h : strStartsWith a p = true) : strStartsWith (a ++ b) p = true := by
  unfold strStartsWith at h ⊢
  rw [String.data_append]
  exact isPrefixOf_append_of p.data a.data b.data h

set_option maxHeartbeats 4000000 in
/-- C9: axis kind is branched on chart type. For every non-scatter chart
type, the X axis (position b or t) is emitted as a `c:catAx` category axis
whose output is independent of the axis's logBase/minimum/maximum scaling
fields; for scatter charts the same position yields a `c:valAx` value
axis, the Y axis (position l) is a `c:valAx` for every chart type, and a
scatter value axis with log-base 10, minimum 1 and maximum 100 carries the
corresponding `c:logBase`/`c:min`/`c:max` scaling attributes. -/
theorem axis_kind_by_chart_type (axis : AxisCfg) (cross : Nat) (ct : String)
    (sec : Bool) (pos : String) (hct : ct ≠ "scatter")
    (hpos : pos = "b" ∨ pos = "t") (lb mn mx : Option JSNum) :
    (generateAxisXML { axis with logBase := lb, minimum := mn, maximum := mx }
        pos cross ct sec
      = generateAxisXML axis pos cross ct sec) ∧
    strStartsWith (generateAxisXML axis pos cross ct sec) "<c:catAx>"
      = true ∧
    strStartsWith (generateAxisXML axis pos cross "scatter" sec) "<c:valAx>"
      = true ∧
    strStartsWith (generateAxisXML axis "l" cross ct sec) "<c:valAx>"
      = true ∧
    strContains (generateAxisXML scatterScaledAxis "b" 222 "scatter" false)
      "<c:logBase val=\"10\"/>" = true ∧
    strContains (generateAxisXML scatterScaledAxis "b" 222 "scatter" false)
      "<c:max val=\"100\"/>" = true ∧
    strContains (generateAxisXML scatterScaledAxis "b" 222 "scatter" false)
      "<c:min val=\"1\"/>" = true ∧
    strContains (generateAxisXML scatterScaledAxis "b" 222 "scatter" false)
      "catAx" = false := by
  have hct' : (ct == "scatter") = false := by simp [hct]
  refine ⟨?_, ?_, ?_, ?_, ?_, ?_, ?_, ?_⟩
  · rcases hpos with rfl | rfl <;> simp [generateAxisXML, hct', hct]
  · rcases hpos with rfl | rfl <;>
    · simp [generateAxisXML, hct, hct']
      repeat apply strStartsWith_assoc
      decide
  · rcases hpos with rfl | rfl <;>
    · simp [generateAxisXML]
      repeat apply strStartsWith_assoc
      decide
  · simp [generateAxisXML]
    repeat apply strStartsWith_assoc
    decide
  · with_unfolding_all decide
  · with_unfolding_all decide
  · with_unfolding_all decide
  · with_unfolding_all decide

set_option maxHeartbeats 2000000 in
theorem axis_kind_by_chart_type_witness :
    ("line" ≠ "scatter") ∧ ("b" = "b" ∨ "b" = "t") ∧
    ((generateAxisXML
        { ({ id := 7 } : AxisCfg) with
            logBase := some (.fin 2)
            minimum := some (.fin 3)
            maximum := some (.fin 4) } "b" 9 "line" false
        = generateAxisXML { id := 7 } "b" 9 "line" false) ∧
      strStartsWith (generateAxisXML { id := 7 } "b" 9 "line" false)
        "<c:catAx>" = true ∧
      strStartsWith (generateAxisXML { id := 7 } "b" 9 "scatter" false)
        "<c:valAx>" = true ∧
      strStartsWith (generateAxisXML { id := 7 } "l" 9 "line" false)
        "<c:valAx>" = true ∧
      strContains (generateAxisXML scatterScaledAxis "b" 222 "scatter" false)
        "<c:logBase val=\"10\"/>" = true ∧
      strContains (generateAxisXML scatterScaledAxis "b" 222 "scatter" false)
        "<c:max val=\"100\"/>" = true ∧
      strContains (generateAxisXML scatterScaledAxis "b" 222 "scatter" false)
        "<c:min val=\"1\"/>" = true ∧
      strContains (generateAxisXML scatterScaledAxis "b" 222 "scatter" false)
        "catAx" = false) :=
  ⟨by decide, Or.inl rfl,
    axis_kind_by_chart_type ({ id := 7 } : AxisCfg) 9 "line" false "b" (by decide)
      (Or.inl rfl) (some (.fin 2)) (some (.fin 3)) (some (.fin 4))⟩

end Xlsx

namespace Xlsx

theorem jdepthFields_bound : ∀ (fs : List (String × JVal)) (p : String × JVal),
    p ∈ fs → jdepth p.2 ≤ jdepth.jdepthFields fs := by
  intro fs
  induction fs with
  | nil => intro p h; cases h
  | cons q rest ih =>
    obtain ⟨k, v⟩ := q
    intro p h
    rcases List.mem_cons.mp h with rfl | h2
    · exact Nat.le_max_left (jdepth v) (jdepth.jdepthFields rest)
    · exact le_trans (ih p h2)
        (Nat.le_max_right (jdepth v) (jdepth.jdepthFields rest))

theorem jdepthElems_bound : ∀ (es : List JVal) (v : JVal),
    v ∈ es → jdepth v ≤ jdepth.jdepthElems es := by
  intro es
  induction es with
  | nil => intro v h; cases h
  | cons w rest ih =>
    intro v h
    rcases List.mem_cons.mp h with rfl | h2
    · exact Nat.le_max_left (jdepth v) (jdepth.jdepthElems rest)
    · exact le_trans (ih v h2)
        (Nat.le_max_right (jdepth w) (jdepth.jdepthElems rest))

theorem mergeFieldsWith_congr (r1 r2 : JVal → JVal → JVal) :
    ∀ (entries acc : List (String × JVal)),
      (∀ p ∈ entries, isMergeObject p.2 = true → ∀ a, r1 a p.2 = r2 a p.2) →
      mergeFieldsWith r1 acc entries = mergeFieldsWith r2 acc entries := by
  intro entries
  induction entries with
  | nil => intro acc _; rfl
  | cons q rest ih =>
    intro acc h
    obtain ⟨k, v⟩ := q
    unfold mergeFieldsWith
    by_cases hbk : isBannedKey k
    · rw [if_pos hbk, if_pos hbk]
      exact ih acc (fun p hp => h p (List.mem_cons_of_mem _ hp))
    · rw [if_neg hbk, if_neg hbk]
      by_cases hmv : isMergeObject v
      · rw [if_pos hmv, if_pos hmv,
          h (k, v) (List.mem_cons_self _ _) hmv (jsGetOrEmptyObj acc k)]
        exact ih _ (fun p hp => h p (List.mem_cons_of_mem _ hp))
      · rw [if_neg hmv, if_neg hmv]
        exact ih _ (fun p hp => h p (List.mem_cons_of_mem _ hp))

theorem ownEntries_mergeObject_bound (s : JVal) (m : Nat)
    (h : jdepth s < m + 1) :
    ∀ p ∈ ownEntries s, isMergeObject p.2 = true → jdepth p.2 < m := by
  intro p hp hm
  cases s with
  | obj fs =>
    have hb := jdepthFields_bound fs p hp
    simp [jdepth] at h
    omega
  | arr es =>
    rcases List.mem_map.mp hp with ⟨q, hq, rfl⟩
    obtain ⟨qi, qv⟩ := q
    have hget : es.get? qi = some qv := by
      rw [List.get?_eq_getElem?]
      exact List.mk_mem_enum_iff_getElem?.mp hq
    have hb := jdepthElems_bound es qv (List.get?_mem hget)
    simp [jdepth] at h
    simp only []
    omega
  | str str =>
    rcases List.mem_map.mp hp with ⟨q, hq, rfl⟩
    simp [isMergeObject] at hm
  | vnull => cases hp
  | vundef => cases hp
  | bool b => cases hp
  | num j => cases hp

theorem deepMergeF_irrel : ∀ (f1 f2 : Nat) (t s : JVal),
    jdepth s < f1 → jdepth s < f2 → deepMergeF f1 t s = deepMergeF f2 t s := by
  intro f1
  induction f1 with
  | zero => intro f2 t s h1 _; exact absurd h1 (Nat.not_lt_zero _)
  | succ m ih =>
    intro f2 t s h1 h2
    cases f2 with
    | zero => exact absurd h2 (Nat.not_lt_zero _)
    | succ n =>
      show JVal.obj _ = JVal.obj _
      congr 1
      apply mergeFieldsWith_congr
      intro p hp hm a
      have hb1 := ownEntries_mergeObject_bound s m h1 p hp hm
      have hb2 := ownEntries_mergeObject_bound s n h2 p hp hm
      exact ih n a p.2 hb1 hb2

end Xlsx

namespace Xlsx

theorem scrub_of_not_mergeObject (v : JVal) (h : isMergeObject v = false) :
    scrub v = v := by
  cases v <;> first | rfl | (simp [isMergeObject] at h)

theorem isMergeObject_scrub (v : JVal) :
    isMergeObject (scrub v) = isMergeObject v := by
  cases v <;> rfl

mutual

theorem jdepth_scrub_le (s : JVal) : jdepth (scrub s) ≤ jdepth s := by
  cases s with
  | obj fs =>
    show jdepth.jdepthFields (scrubFields fs) + 1 ≤ jdepth.jdepthFields fs + 1
    exact Nat.succ_le_succ (jdepthFields_scrub_le fs)
  | vnull => exact le_refl _
  | vundef => exact le_refl _
  | bool b => exact le_refl _
  | num j => exact le_refl _
  | str s => exact le_refl _
  | arr es => exact le_refl _

theorem jdepthFields_scrub_le (fs : List (String × JVal)) :
    jdepth.jdepthFields (scrubFields fs) ≤ jdepth.jdepthFields fs := by
  cases fs with
  | nil => exact le_refl _
  | cons q rest =>
    show jdepth.jdepthFields
        (if isBannedKey q.1 then scrubFields rest
         else (q.1, scrub q.2) :: scrubFields rest)
      ≤ max (jdepth q.2) (jdepth.jdepthFields rest)
    by_cases hbk : isBannedKey q.1
    · rw [if_pos hbk]
      exact le_trans (jdepthFields_scrub_le rest)
        (Nat.le_max_right (jdepth q.2) (jdepth.jdepthFields rest))
    · rw [if_neg hbk]
      show max (jdepth (scrub q.2)) (jdepth.jdepthFields (scrubFields rest))
        ≤ max (jdepth q.2) (jdepth.jdepthFields rest)
      exact max_le_max (jdepth_scrub_le q.2) (jdepthFields_scrub_le rest)

end

theorem mergeFieldsWith_cons (rec : JVal → JVal → JVal)
    (acc : List (String × JVal)) (k : String) (v : JVal)
    (rest : List (String × JVal)) :
    mergeFieldsWith rec acc ((k, v) :: rest)
      = if isBannedKey k then mergeFieldsWith rec acc rest
        else if isMergeObject v then
          mergeFieldsWith rec
            (jsObjSet acc k (rec (jsGetOrEmptyObj acc k) v)) rest
        else mergeFieldsWith rec (jsObjSet acc k v) rest := rfl

theorem mergeFields_scrubFields (m : Nat)
    (ih : ∀ t s, jdepth s < m → deepMergeF m t s = deepMergeF m t (scrub s)) :
    ∀ (fs acc : List (String × JVal)),
      (∀ p ∈ fs, isMergeObject p.2 = true → jdepth p.2 < m) →
      mergeFieldsWith (deepMergeF m) acc fs
        = mergeFieldsWith (deepMergeF m) acc (scrubFields fs) := by
  intro fs
  induction fs with
  | nil => intro acc _; rfl
  | cons q rest ihf =>
    intro acc hb
    obtain ⟨k, v⟩ := q
    show mergeFieldsWith (deepMergeF m) acc ((k, v) :: rest)
      = mergeFieldsWith (deepMergeF m) acc
          (if isBannedKey k then scrubFields rest
           else (k, scrub v) :: scrubFields rest)
    by_cases hbk : isBannedKey k
    · rw [if_pos hbk, mergeFieldsWith_cons, if_pos hbk]
      exact ihf acc (fun p hp => hb p (List.mem_cons_of_mem _ hp))
    · rw [if_neg hbk, mergeFieldsWith_cons, mergeFieldsWith_cons,
        if_neg hbk, if_neg hbk]
      by_cases hmv : isMergeObject v
      · rw [if_pos hmv, if_pos (by rw [isMergeObject_scrub]; exact hmv)]
        rw [← ih (jsGetOrEmptyObj acc k) v
          (hb (k, v) (List.mem_cons_self _ _) hmv)]
        exact ihf _ (fun p hp => hb p (List.mem_cons_of_mem _ hp))
      · rw [if_neg hmv, if_neg (by rw [isMergeObject_scrub]; exact hmv)]
        rw [scrub_of_not_mergeObject v (by simpa using hmv)]
        exact ihf _ (fun p hp => hb p (List.mem_cons_of_mem _ hp))

theorem deepMergeF_scrub_right : ∀ (f : Nat) (t s : JVal),
    jdepth s < f → deepMergeF f t s = deepMergeF f t (scrub s) := by
  intro f
  induction f with
  | zero => intro t s h; exact absurd h (Nat.not_lt_zero _)
  | succ m ih =>
    intro t s h
    cases s with
    | obj fs =>
      show JVal.obj _ = JVal.obj _
      congr 1
      exact mergeFields_scrubFields m ih fs (ownEntries t)
        (fun p hp hm => ownEntries_mergeObject_bound (.obj fs) m h p hp hm)
    | vnull => rfl
    | vundef => rfl
    | bool b => rfl
    | num j => rfl
    | str s => rfl
    | arr es => rfl

theorem jsObjGet_map_set_ne (key k : String) (v : JVal) (h : k ≠ key) :
    ∀ (m : List (String × JVal)),
      jsObjGet (m.map (fun p => if p.1 = key then (key, v) else p)) k
        = jsObjGet m k := by
  intro m
  induction m with
  | nil => rfl
  | cons a rest ih =>
    by_cases ha : a.1 = key
    · rw [List.map_cons, if_pos ha]
      unfold jsObjGet at ih ⊢
      rw [List.find?_cons_of_neg _ (by simp; exact fun hkk => h hkk.symm),
        List.find?_cons_of_neg _ (by
          simp [ha]
          exact fun hkk => h hkk.symm)]
      exact ih
    · rw [List.map_cons, if_neg ha]
      by_cases hak : a.1 = k
      · unfold jsObjGet
        rw [List.find?_cons_of_pos _ (by simp [hak]),
          List.find?_cons_of_pos _ (by simp [hak])]
      · unfold jsObjGet at ih ⊢
        rw [List.find?_cons_of_neg _ (by simp [hak]),
          List.find?_cons_of_neg _ (by simp [hak])]
        exact ih

theorem jsObjGet_jsObjSet_ne (fields : List (String × JVal)) (key k : String)
    (v : JVal) (h : k ≠ key) :
    jsObjGet (jsObjSet fields key v) k = jsObjGet fields k := by
  unfold jsObjSet
  split_ifs with hh
  · exact jsObjGet_map_set_ne key k v h fields
  · unfold jsObjGet
    rw [List.find?_append]
    cases hf : fields.find? (fun p => (p.1 = k : Bool)) with
    | some q => rfl
    | none =>
      have hkey : (decide (key = k)) = false := by
        simp
        exact fun hkk => h hkk.symm
      simp [List.find?, hkey]

theorem mergeFieldsWith_banned_get (r : JVal → JVal → JVal) :
    ∀ (fs acc : List (String × JVal)) (k : String), isBannedKey k = true →
      jsObjGet (mergeFieldsWith r acc fs) k = jsObjGet acc k := by
  intro fs
  induction fs with
  | nil => intro acc k _; rfl
  | cons q rest ih =>
    intro acc k hk
    obtain ⟨k0, v⟩ := q
    unfold mergeFieldsWith
    by_cases hbk : isBannedKey k0
    · rw [if_pos hbk]
      exact ih acc k hk
    · have hne : k ≠ k0 := fun he => hbk (he ▸ hk)
      rw [if_neg hbk]
      by_cases hmv : isMergeObject v
      · rw [if_pos hmv, ih _ k hk, jsObjGet_jsObjSet_ne _ _ _ _ hne]
      · rw [if_neg hmv, ih _ k hk, jsObjGet_jsObjSet_ne _ _ _ _ hne]

/-- C10: `deepMerge` never copies the keys `__proto__`, `constructor` or
`prototype` from its source: two sources that agree after deleting those
keys along every object path (`scrub`) merge to identical results on any
target, and at a banned key the merged object holds exactly what the
target's own entries held, so caller-supplied override objects cannot
pollute `Object.prototype` through the merge. -/
theorem deepMerge_never_copies_banned (t s1 s2 : JVal) (k : String)
    (hs : scrub s1 = scrub s2) (hk : isBannedKey k = true) :
    deepMerge t s1 = deepMerge t s2 ∧
    jsObjGet (ownEntries (deepMerge t s1)) k = jsObjGet (ownEntries t) k := by
  constructor
  · unfold deepMerge
    rw [deepMergeF_scrub_right _ t s1 (Nat.lt_succ_self _),
      deepMergeF_scrub_right _ t s2 (Nat.lt_succ_self _), hs]
    exact deepMergeF_irrel _ _ t (scrub s2)
      (Nat.lt_succ_of_le (le_trans (hs ▸ jdepth_scrub_le s1) (le_refl _)))
      (Nat.lt_succ_of_le (jdepth_scrub_le s2))
  · show jsObjGet (mergeFieldsWith (deepMergeF (jdepth s1)) (ownEntries t)
      (ownEntries s1)) k = jsObjGet (ownEntries t) k
    exact mergeFieldsWith_banned_get _ _ _ k hk

end Xlsx

namespace Xlsx

theorem deepMerge_never_copies_banned_witness :
    scrub pollutionS1 = scrub pollutionS2 ∧ isBannedKey "__proto__" = true ∧
    (deepMerge pollutionT pollutionS1 = deepMerge pollutionT pollutionS2 ∧
     jsObjGet (ownEntries (deepMerge pollutionT pollutionS1)) "__proto__"
       = jsObjGet (ownEntries pollutionT) "__proto__") :=
  ⟨rfl, rfl, deepMerge_never_copies_banned pollutionT pollutionS1 pollutionS2
    "__proto__" rfl rfl⟩

end Xlsx
